import Mathlib

/-!
Formal model of the FinPulse multi-provider ingestion, normalization,
deduplication and caching pipeline (services/tagger.py, services/ingest.py,
services/news_repo.py, services/social_ingest.py, services/macro_trends.py),
with theorems about its documented behaviour.

Modelling conventions:
* Python strings are Lean `String`s; character-level operations work on
  `List Char`.  `str.lower`, `\w`, `[A-Z]` etc. are modelled over ASCII, which
  covers every string literal appearing in the sources.
* Python floats are modelled as rationals (`ℚ`).  `round(x, n)` and format
  rounding use round-half-to-even, as CPython does.
* Network I/O (provider HTTP responses) is an explicit input: each fetcher
  takes the decoded response data as an argument ("oracle"), with `Option`
  encoding a request that raised inside its own try/except.
* Python exceptions that escape a function are modelled with `Except`.
* Python dicts that are used as ordered key/value maps are association lists
  with dict semantics: updating an existing key keeps its position, inserting
  a new key appends it.
-/

namespace FinPulse

/-- ASCII model of Python's regex word character class `\w`. -/
def isWordChar (c : Char) : Bool := c.isAlphanum || c == '_'

/-- Python `str.lower()` (ASCII model). -/
def pyLower (s : String) : String := String.mk (s.toList.map Char.toLower)

/-- Python `str.upper()` (ASCII model). -/
def pyUpper (s : String) : String := String.mk (s.toList.map Char.toUpper)

/-- Leading-whitespace removal, on character lists. -/
def trimLeft (l : List Char) : List Char := l.dropWhile Char.isWhitespace

/-- Python `str.strip()` on character lists: drop whitespace at both ends. -/
def stripChars (l : List Char) : List Char :=
  ((trimLeft l).reverse.dropWhile Char.isWhitespace).reverse

/-- Python `str.strip()`. -/
def pyStrip (s : String) : String := String.mk (stripChars s.toList)

/-- Python `str.lstrip(chars)`: drop leading characters from the given set. -/
def pyLstrip (cs : List Char) (s : String) : String :=
  String.mk (s.toList.dropWhile (fun c => cs.contains c))

/-- Substring test on character lists (Python `needle in hay`). -/
def containsSub (hay needle : List Char) : Bool :=
  match hay with
  | [] => needle.isEmpty
  | _ :: t => needle.isPrefixOf hay || containsSub t needle

/-- Python `needle in hay` on strings. -/
def strContains (hay needle : String) : Bool := containsSub hay.toList needle.toList

/-- Whether an optional preceding character is a word boundary from the left
(the position is at the start of the text, or the previous character is not a
word character). -/
def boundaryBefore : Option Char → Bool
  | none => true
  | some c => !isWordChar c

/-- Whether the text continuing after a match keeps a word boundary (end of
text, or the next character is not a word character). -/
def boundaryAfter : List Char → Bool
  | [] => true
  | c :: _ => !isWordChar c

/-- A literal pattern matches at the head of `hay` with a trailing word
boundary. -/
def wordMatchHere (hay pat : List Char) : Bool :=
  pat.isPrefixOf hay && boundaryAfter (hay.drop pat.length)

/-- Scan of `re.search` for a word-bounded literal: does `pat` occur in `hay`
with word boundaries on both sides, given the character preceding `hay`? -/
def wordOccursAux (pat : List Char) : Option Char → List Char → Bool
  | prev, hay =>
    (boundaryBefore prev && wordMatchHere hay pat) ||
      match hay with
      | [] => false
      | c :: t => wordOccursAux pat (some c) t

/-- `re.search(r"\b pat \b", hay)` for a literal alternative `pat`. -/
def wordOccurs (hay pat : String) : Bool := wordOccursAux pat.toList none hay.toList

/-- Stable insertion of `x` into `l`: `x` goes after every element `y` with
`le y x`, so elements comparing equal keep their original order. -/
def insertStable {α : Type} (le : α → α → Bool) (x : α) : List α → List α
  | [] => [x]
  | y :: t => if le y x then y :: insertStable le x t else x :: y :: t

/-- Python's stable `list.sort` / `sorted` with a boolean total preorder
`le`, modelled as a stable insertion sort (any two stable sorts agree on a
total preorder, and this one is kernel-reducible). -/
def pySort {α : Type} (le : α → α → Bool) (l : List α) : List α :=
  l.foldl (fun acc x => insertStable le x acc) []

/-- Python-dict update on an association list: an existing key keeps its
position and takes the new value, a new key is appended (a dict never holds a
key twice, so replacing the first occurrence is enough). -/
def assocSet {β : Type} : List (String × β) → String → β → List (String × β)
  | [], k, v => [(k, v)]
  | p :: t, k, v => if p.1 == k then (k, v) :: t else p :: assocSet t k v

/-- `dict.get(k)` on an association list. -/
def assocGet {β : Type} : List (String × β) → String → Option β
  | [], _ => none
  | p :: t, k => if p.1 == k then some p.2 else assocGet t k

/-- `k in dict` on an association list. -/
def assocHas {β : Type} : List (String × β) → String → Bool
  | [], _ => false
  | p :: t, k => p.1 == k || assocHas t k

end FinPulse

namespace FinPulse

/-!  services/tagger.py  -/

/-- KEYWORD_TAGS from services/tagger.py, in source (dict-insertion) order.
Every pattern is `\b(alt1|alt2|...)\b` over literal alternatives, so each
entry is the list of its alternatives.  The alternative `opec\+?` of the OPEC
pattern is boolean-equivalent to the plain alternative `opec` for
`re.search` (a trailing `+` is itself a non-word character), so the OPEC
entry carries the single alternative "opec". -/
def KEYWORD_TAGS : List (List String × String) :=
  [ (["inflation", "cpi", "ppi", "deflator", "core inflation"], "Inflation"),
    (["gdp", "growth"], "GDP"),
    (["fed", "fomc", "powell"], "Fed"),
    (["boj", "bank of japan"], "BoJ"),
    (["boe", "bank of england"], "BoE"),
    (["ecb", "lagarde"], "ECB"),
    (["opec"], "OPEC"),
    (["brent", "wti", "crude"], "Oil"),
    (["natural gas", "lng"], "NaturalGas"),
    (["copper", "aluminum", "aluminium", "nickel", "zinc"], "BaseMetals"),
    (["wheat", "corn", "soy", "soybeans", "sugar"], "Ags"),
    (["equities", "stocks", "shares", "equity"], "Equities"),
    (["treasuries", "bonds", "yields", "yield"], "Rates"),
    (["fx", "forex", "currency", "currencies", "usd", "eur", "gbp", "jpy", "cny"], "FX"),
    (["sanction", "sanctions"], "Sanctions"),
    (["tariff", "tariffs"], "Tariffs"),
    (["fiscal", "budget", "deficit"], "Fiscal"),
    (["regulation", "regulatory", "legislation", "bill"], "Policy"),
    (["congress", "senate", "parliament", "white house"], "Government"),
    (["election", "elections", "campaign"], "Elections"),
    (["geopolitic", "geopolitical", "nato", "conflict", "war"], "Geopolitics") ]

/-- tagger._keyword_tags: tags whose pattern matches the lowered text. -/
def keywordTags (text : String) : List String :=
  let lo := pyLower text
  KEYWORD_TAGS.filterMap fun entry =>
    if entry.1.any (fun alt => wordOccurs lo alt) then some entry.2 else none

/-- Longest run of ASCII uppercase letters at the head of the list. -/
def upperRun : List Char → List Char
  | [] => []
  | c :: t => if c.isUpper then c :: upperRun t else []

/-- tagger.TICKER_RX scan: `(?<!\w)\$[A-Z]{1,5}(?!\w)` via `finditer`,
returning each match without its leading `$`.  The scan examines every
position; a new match can only start at a `$` preceded by a non-word
character, so position-by-position scanning agrees with `finditer`'s
jump-past-the-match behaviour. -/
def tickersAux : Option Char → List Char → List String
  | _, [] => []
  | prev, c :: t =>
    if c == '$' then
      let run := upperRun t
      if boundaryBefore prev && decide (1 ≤ run.length) && decide (run.length ≤ 5)
          && boundaryAfter (t.drop run.length) then
        String.mk run :: tickersAux (some c) t
      else
        tickersAux (some c) t
    else
      tickersAux (some c) t

/-- tagger._tickers. -/
def tickers (text : String) : List String := tickersAux none text.toList

/-- Maximal runs of word characters of a character list, in order. -/
def wordRunsAux : List Char → List Char → List (List Char)
  | cur, [] => if cur.isEmpty then [] else [cur.reverse]
  | cur, c :: t =>
    if isWordChar c then wordRunsAux (c :: cur) t
    else if cur.isEmpty then wordRunsAux [] t
    else cur.reverse :: wordRunsAux [] t

/-- Maximal runs of word characters. -/
def wordRuns (l : List Char) : List (List Char) := wordRunsAux [] l

/-- tagger.STOP_TOKENS. -/
def STOP_TOKENS : List String :=
  ["AND", "THE", "FOR", "WITH", "FROM", "THIS", "THAT", "WHAT", "WILL", "HAVE", "HAS",
   "OPEC", "CPI", "PPI", "GDP", "ECB", "BOE", "BOJ", "FED"]

/-- tagger.UPPER_TOKEN_RX scan: `\b[A-Z]{2,6}\b` matches exactly the maximal
word-character runs that consist solely of 2 to 6 uppercase letters, minus the
stop list and all-digit tokens (the latter is vacuous for uppercase runs but
kept from the source). -/
def upperTokens (text : String) : List String :=
  (wordRuns text.toList).filterMap fun run =>
    if run.all Char.isUpper && decide (2 ≤ run.length) && decide (run.length ≤ 6)
        && !STOP_TOKENS.contains (String.mk run) && !run.all Char.isDigit then
      some (String.mk run)
    else none

/-- Loop body of tagger.dedupe_preserve_order, carrying the `seen` set of
lowercased normal forms (modelled as a list). -/
def dedupeAux (seen : List String) : List String → List String
  | [] => []
  | it :: rest =>
    let t := pyStrip it
    if t = "" then dedupeAux seen rest
    else
      let norm := pyLower t
      if seen.contains norm then dedupeAux seen rest
      else t :: dedupeAux (norm :: seen) rest

/-- tagger.dedupe_preserve_order. -/
def dedupe_preserve_order (items : List String) : List String := dedupeAux [] items

/-- tagger.auto_tags.  `base = []` models `base=None`/empty (both falsy). -/
def auto_tags (title : String) (summary : String) (base : List String) (limit : Nat) :
    List String :=
  let text := pyStrip (title ++ " " ++ summary)
  let candidates := keywordTags text ++ tickers text ++ upperTokens title
  let candidates := if base.isEmpty then candidates else base ++ candidates
  (dedupe_preserve_order candidates).take limit

/-- The `seen` set accumulated by `dedupeAux` after scanning a list. -/
def seenAfter (seen : List String) : List String → List String
  | [] => seen
  | it :: rest =>
    let t := pyStrip it
    if t = "" then seenAfter seen rest
    else
      let norm := pyLower t
      if seen.contains norm then seenAfter seen rest
      else seenAfter (norm :: seen) rest

/-- Output sanity of `dedupeAux`: every element is stripped, non-empty and
its lowercase class is fresh, and the lowercase classes are pairwise
distinct. -/
def TagClean (seen : List String) (xs : List String) : Prop :=
  (∀ x ∈ xs, pyStrip x = x ∧ x ≠ "") ∧ (xs.map pyLower).Nodup ∧
    ∀ x ∈ xs, pyLower x ∉ seen

end FinPulse


namespace FinPulse

/-!  services/ingest.py and services/news_repo.py

A normalized article record.  The sources keep these as dicts whose fields
are strings (providers.py always emits every field below); the typed record
makes the string coercions and key-presence defaults of `_json_safe` and
`NewsRepo._load_if_changed` no-ops. -/

structure Article where
  id : String
  title : String
  summary : String
  source : String
  url : String
  date : String
  category : String
  tags : List String
deriving Repr, DecidableEq

/-- ingest.SOURCE_ALLOWLIST (a set iterated only through `any`, so list order
is irrelevant). -/
def SOURCE_ALLOWLIST : List String :=
  ["reuters", "bloomberg", "wall street journal", "wsj", "financial times",
   "ft.com", "cnbc", "marketwatch", "yahoo finance", "yahoo news", "yahoo",
   "barron", "investing.com", "investopedia", "financial post", "politico",
   "associated press", "ap news", "apnews", "the hill", "washington post",
   "new york times", "nytimes", "fortune", "forbes", "business insider",
   "benzinga", "motley fool", "cnbc international", "nikkei", "ft advisor",
   "economist", "cbs news", "abc news", "bbc", "guardian", "axios"]

/-- ingest.FINANCE_KEYWORDS. -/
def FINANCE_KEYWORDS : List String :=
  ["market", "markets", "stock", "stocks", "share", "shares", "equity",
   "equities", "earnings", "profit", "loss", "outlook", "forecast", "revenue",
   "ipo", "merger", "acquisition", "deal", "treasury", "bond", "bonds",
   "yield", "yields", "spread", "credit", "bank", "banks", "loan",
   "inflation", "cpi", "ppi", "gdp", "jobs", "employment", "labour", "labor",
   "unemployment", "federal reserve", "fed", "interest rate", "interest rates",
   "rate hike", "rate cut", "monetary policy", "currency", "currencies",
   "forex", "fx", "dollar", "yen", "yuan", "euro", "oil", "energy", "gas",
   "commodity", "commodities", "metals", "gold", "silver", "petroleum"]

/-- ingest.POLICY_KEYWORDS. -/
def POLICY_KEYWORDS : List String :=
  ["policy", "fiscal", "budget", "deficit", "tariff", "tariffs", "sanction",
   "sanctions", "trade", "trade policy", "trade deal", "geopolitic",
   "geopolitical", "diplomacy", "diplomatic", "parliament", "congress",
   "senate", "house of representatives", "white house", "regulation",
   "regulatory", "legislation", "bill", "election", "elections", "campaign",
   "coalition", "summit", "nato", "war", "conflict", "ukraine", "russia",
   "china", "taiwan", "middle east", "israel", "sanctioned"]

/-- ingest.FINANCE_TAG_HINTS. -/
def FINANCE_TAG_HINTS : List String :=
  ["spy", "qqq", "iwm", "sp500", "s&p 500", "nasdaq", "dow", "treasury",
   "bonds", "yields", "inflation", "fed", "ecb", "boe", "boj", "rates",
   "energy", "oil", "gas", "commodities", "macro", "finance", "markets"]

/-- ingest.POLICY_TAG_HINTS. -/
def POLICY_TAG_HINTS : List String :=
  ["policy", "sanctions", "tariffs", "geopolitics", "geopolitical",
   "white house", "congress", "senate", "regulation", "legislation",
   "election", "war", "nato"]

/-- ingest.CATEGORY_SIGNALS. -/
def CATEGORY_SIGNALS : List (String × String) :=
  [("markets", "finance"), ("inflation", "finance"), ("oil", "finance"),
   ("commodities", "finance"), ("rates", "finance"), ("macro", "finance"),
   ("policy", "policy"), ("geopolitics", "policy")]

/-- ingest._is_ticker_token. -/
def isTickerToken (t : String) : Bool :=
  if t = "" then false
  else
    let raw := pyLstrip ['$'] t
    raw ≠ "" && raw.toList.all Char.isAlpha && decide (1 ≤ raw.length)
      && decide (raw.length ≤ 5) && pyUpper raw == raw

/-- ingest._json_safe on a typed record: only the date normalization has an
effect (tags and the other fields are already strings, and the internal
`_date` never exists on the typed record).  `today` stands for
`datetime.utcnow().strftime(DATE_FMT)`. -/
def jsonSafe (today : String) (r : Article) : Article :=
  { r with date := if 10 ≤ r.date.length then String.mk (r.date.toList.take 10) else today }

/-- Python `hay.replace(pat, repl)` for a non-empty pattern: replace all
non-overlapping occurrences, scanning left to right.  The fuel argument
(instantiated with the text length, of which each step consumes at least one
character) keeps the recursion structural. -/
def replaceAllFuel (pat repl : List Char) : Nat → List Char → List Char
  | 0, l => l
  | _ + 1, [] => []
  | fuel + 1, c :: t =>
    if pat ≠ [] ∧ pat.isPrefixOf (c :: t) then
      repl ++ replaceAllFuel pat repl fuel ((c :: t).drop pat.length)
    else
      c :: replaceAllFuel pat repl fuel t

/-- Python `s.replace(pat, repl)` (an empty pattern is returned unchanged;
the sources only use non-empty patterns). -/
def pyReplace (s pat repl : String) : String :=
  String.mk (replaceAllFuel pat.toList repl.toList s.toList.length s.toList)

/-- Python `hay.replace(pat, "")`. -/
def removeAllSub (pat l : List Char) : List Char :=
  replaceAllFuel pat [] l.length l

/-- The provider prefixes removed by ingest._normalize_source_name, in the
order the chained `.replace` calls apply them. -/
def PROVIDER_PREFIXES : List String :=
  ["newsapi:", "alphavantage:", "alpha vantage:", "finnhub:", "marketaux:"]

/-- Character class `[a-z0-9]` of the `re.sub` in _normalize_source_name. -/
def isLowerAlnum (c : Char) : Bool := ('a' ≤ c && c ≤ 'z') || ('0' ≤ c && c ≤ '9')

/-- `re.sub(r"[^a-z0-9]+", " ", s)`: collapse every maximal run of characters
outside `[a-z0-9]` into a single space.  The flag records whether the
previous character was part of such a run. -/
def collapseAux : Bool → List Char → List Char
  | _, [] => []
  | inRun, c :: t =>
    if isLowerAlnum c then c :: collapseAux false t
    else if inRun then collapseAux true t
    else ' ' :: collapseAux true t

/-- ingest._normalize_source_name. -/
def normalizeSourceName (source : String) : String :=
  let lowered := pyLower source
  let lowered := PROVIDER_PREFIXES.foldl
    (fun acc p => String.mk (removeAllSub p.toList acc.toList)) lowered
  pyStrip (String.mk (collapseAux false lowered.toList))

/-- ingest._allowed_source (`source = ""` models a missing/falsy source). -/
def allowedSource (source : String) : Bool :=
  if source = "" then false
  else
    let norm := normalizeSourceName source
    SOURCE_ALLOWLIST.any fun token => strContains norm token

/-- ingest._normalize_tags. -/
def normalizeTags (tags : List String) : List String :=
  tags.filterMap fun tag =>
    let cleaned := pyLstrip ['#', '$'] (pyLower tag)
    if cleaned = "" then none else some cleaned

/-- ingest._match_keywords: plain substring containment, no word boundaries. -/
def matchKeywords (text : String) (keywords : List String) : Bool :=
  keywords.any fun keyword => strContains text keyword

/-- ingest._classify_article. -/
def classifyArticle (a : Article) : String :=
  let text := pyLower (a.title ++ " " ++ a.summary)
  let tags := normalizeTags a.tags
  let category := pyLower a.category
  let financeHit := matchKeywords text FINANCE_KEYWORDS
    || tags.any (fun tag => FINANCE_TAG_HINTS.contains tag)
  let policyHit := matchKeywords text POLICY_KEYWORDS
    || tags.any (fun tag => POLICY_TAG_HINTS.contains tag)
  let signal := CATEGORY_SIGNALS.lookup category
  let financeHit := if signal = some "finance" then true else financeHit
  let policyHit := if signal = some "policy" then true else policyHit
  if financeHit && policyHit then "mixed"
  else if financeHit then "finance"
  else if policyHit then "policy"
  else "other"

/-- ingest._is_relevant_article. -/
def isRelevantArticle (a : Article) : Bool :=
  if pyLower a.category = "system" then false
  else if !allowedSource a.source then false
  else
    let c := classifyArticle a
    c == "finance" || c == "policy" || c == "mixed"

/-- State of the persisted news JSON file. -/
inductive NewsStore where
  | absent : NewsStore
  | corrupt : NewsStore
  | valid : List Article → NewsStore
deriving Repr, DecidableEq

/-- Python exceptions that can escape `NewsRepo._load_if_changed`:
`self.path.stat()` raises FileNotFoundError when the file does not exist, and
`json.load` raises JSONDecodeError on invalid JSON; neither is caught there
or in `ingest_all`. -/
inductive PyError where
  | fileNotFound : PyError
  | jsonDecode : PyError
deriving Repr, DecidableEq

/-- Day count used by `datetime.strptime` validation. -/
def daysInMonth (y m : Nat) : Nat :=
  if m = 2 then (if (y % 4 = 0 && y % 100 ≠ 0) || y % 400 = 0 then 29 else 28)
  else if m = 4 || m = 6 || m = 9 || m = 11 then 30 else 31

/-- Split a character list on a separator character (Python `s.split(sep)`
for a one-character separator). -/
def splitOnCharAux (sep : Char) : List Char → List Char → List String
  | cur, [] => [String.mk cur.reverse]
  | cur, c :: t =>
    if c == sep then String.mk cur.reverse :: splitOnCharAux sep [] t
    else splitOnCharAux sep (c :: cur) t

/-- Split a string on a separator character. -/
def splitOnChar (sep : Char) (s : String) : List String :=
  splitOnCharAux sep [] s.toList

/-- Parse a non-empty all-digit string as a natural number. -/
def digitsToNat (s : String) : Option Nat :=
  if s.toList ≠ [] ∧ s.toList.all Char.isDigit then
    some (s.toList.foldl (fun acc c => acc * 10 + (c.toNat - 48)) 0)
  else none

/-- `datetime.strptime(s, "%Y-%m-%d")`, as a partial parse (`%Y` accepts up
to four digits, `%m`/`%d` one or two, and the day must exist in the month). -/
def parseYmd (s : String) : Option (Nat × Nat × Nat) :=
  match splitOnChar '-' s with
  | [ys, ms, ds] =>
    match digitsToNat ys, digitsToNat ms, digitsToNat ds with
    | some y, some m, some d =>
      if decide (1 ≤ m) && decide (m ≤ 12) && decide (1 ≤ d)
          && decide (d ≤ daysInMonth y m) && decide (ys.length ≤ 4)
          && decide (ms.length ≤ 2) && decide (ds.length ≤ 2) then
        some (y, m, d)
      else none
    | _, _, _ => none
  | _ => none

/-- Sort key for `NewsRepo`'s internal `_date` (1970-01-01 on parse failure). -/
def dateKey (date : String) : Nat :=
  match parseYmd date with
  | some (y, m, d) => y * 10000 + m * 100 + d
  | none => 1970 * 10000 + 100 + 1

/-- Normalization performed by `NewsRepo._load_if_changed` on a successfully
parsed file: strip each tag, then sort newest-first by the parsed date
(`sorted(..., reverse=True)` is stable, so ties keep file order). -/
def repoLoad (items : List Article) : List Article :=
  pySort (fun a b => decide (dateKey b.date ≤ dateKey a.date))
    (items.map fun item => { item with tags := item.tags.map pyStrip })

/-- `NewsRepo.list_all` as called by `ingest_all`: `self.path.stat()` and
`json.load` raise on a missing or corrupt file. -/
def repoListAll : NewsStore → Except PyError (List Article)
  | NewsStore.absent => Except.error PyError.fileNotFound
  | NewsStore.corrupt => Except.error PyError.jsonDecode
  | NewsStore.valid items => Except.ok (repoLoad items)

/-- Placeholder of ingest_all's empty-and-empty guard. -/
def noNewsPlaceholder (today : String) : Article :=
  { id := "system:no-news", title := "No news available",
    summary := "All providers failed or API keys missing. Check your .env and try again.",
    source := "FinPulse", url := "#", date := today, category := "System",
    tags := ["error"] }

/-- Placeholder of ingest_all's empty-after-filter guard. -/
def noRelevantNewsPlaceholder (today : String) : Article :=
  { id := "system:no-relevant-news",
    title := "No qualifying financial or policy headlines",
    summary := "Provider responses were filtered out by the finance/policy focus rules. Check source allowlist or keyword filters.",
    source := "FinPulse", url := "#", date := today, category := "System",
    tags := ["maintenance"] }

/-- The candidate-merge loop of ingest_all (lines 398-411): flatten batches
into a map keyed by id, last write wins, dropping items with neither url nor
title.  A missing id gets the last-ditch `auto:` id; `hash(url or title)` is
modelled by the hashed string itself (only equality of ids matters). -/
def mergeById (batches : List (List Article)) : List (String × Article) :=
  batches.foldl
    (fun m batch =>
      batch.foldl
        (fun m item =>
          if item.url = "" && item.title = "" then m
          else
            let iid :=
              if item.id = "" then
                "auto:" ++ (if item.url ≠ "" then item.url else item.title)
              else item.id
            assocSet m iid { item with id := iid })
        m)
    []

/-- The per-record tagging step of ingest_all: auto_tags with the record's
own tags as base and limit 6, then `$`-prefix ticker-looking tags. -/
def retagArticle (a : Article) : Article :=
  let tags := auto_tags a.title a.summary a.tags 6
  { a with tags := tags.map fun t =>
      if isTickerToken t then "$" ++ pyLstrip ['$'] t else t }

/-- Result of one ingest cycle: the returned count and the store state left
on disk. -/
structure IngestResult where
  count : Nat
  store : NewsStore
deriving Repr, DecidableEq

/-- The middle of ingest_all after the empty-and-empty guard (lines
435-457): sort the new rows newest-first by raw date string, auto-tag them,
merge with the existing records by id (new wins), re-tag every record in the
merged map, keep only relevant records and sort them newest-first. -/
def ingestFinalRows (newRows0 existing : List Article) : List Article :=
  let newRows := pySort (fun a b => decide (b.date ≤ a.date)) newRows0
  let newRows := newRows.map retagArticle
  let existingMap := existing.foldl (fun m e => assocSet m e.id e) []
  let mergedMap := newRows.foldl (fun m r => assocSet m r.id r) existingMap
  let mergedMap := mergedMap.map fun p => (p.1, retagArticle p.2)
  let finalRows := (mergedMap.map Prod.snd).filter isRelevantArticle
  pySort (fun a b => decide (b.date ≤ a.date)) finalRows

/-- ingest_all after a successful `repo.list_all()` (lines 419-481): the
empty-and-empty guard, the merge/tag/filter pipeline, the
empty-after-filter guard, and the sanitized write. -/
def ingestCore (today : String) (newRows0 existing : List Article) : IngestResult :=
  if newRows0 = [] ∧ existing = [] then
    ⟨1, NewsStore.valid [noNewsPlaceholder today]⟩
  else if ingestFinalRows newRows0 existing = [] then
    ⟨1, NewsStore.valid [noRelevantNewsPlaceholder today]⟩
  else
    ⟨((ingestFinalRows newRows0 existing).map (jsonSafe today)).length,
      NewsStore.valid ((ingestFinalRows newRows0 existing).map (jsonSafe today))⟩

/-- ingest.ingest_all.  Each provider call is wrapped in its own try/except
in the source, so a provider failure is already an empty batch in `batches`;
`today` stands for `datetime.utcnow().strftime(DATE_FMT)`.  The only
uncaught exceptions are the ones escaping `repo.list_all()` (line 417). -/
def ingest_all (batches : List (List Article)) (today : String) (store : NewsStore) :
    Except PyError IngestResult :=
  let newRows := (mergeById batches).map Prod.snd
  match repoListAll store with
  | Except.error e => Except.error e
  | Except.ok existing => Except.ok (ingestCore today newRows existing)

end FinPulse


namespace FinPulse

/-!  services/social_ingest.py, with services/twitter_auth.py and the
network/fixture collaborators (Twitter API pages, StockTwits, the sample
fixture, tradingview.fetch_snapshots and alpha_vantage.fetch_daily_series_bulk)
supplied as oracles in a `SocialEnv`. -/

/-- social_ingest.SocialPost (a dataclass; optional fields default None). -/
structure SocialPost where
  id : String
  source : String
  symbol : String
  author : String
  url : String
  created_at : String
  text : String
  like_count : Option Int
  reply_count : Option Int
  repost_count : Option Int
  weight : Option ℚ
  engagement_level : Option String
deriving Repr, DecidableEq

/-- social_ingest.MAX_HISTORY_POINTS. -/
def MAX_HISTORY_POINTS : Nat := 60

/-- The positive word list of social_ingest.naive_sentiment. -/
def POSITIVE_TOKENS : List String :=
  ["bull", "bullish", "buy", "call", "moon", "green", "long"]

/-- The negative word list of social_ingest.naive_sentiment. -/
def NEGATIVE_TOKENS : List String :=
  ["bear", "bearish", "sell", "put", "red", "short", "dump"]

/-- social_ingest.naive_sentiment: +1 per positive token contained in the
lowered text, -1 per negative token. -/
def naive_sentiment (text : String) : ℚ :=
  let lowered := pyLower text
  let score := POSITIVE_TOKENS.foldl
    (fun score token => if strContains lowered token then score + 1 else score) (0 : ℚ)
  NEGATIVE_TOKENS.foldl
    (fun score token => if strContains lowered token then score - 1 else score) score

/-- CPython rounding of a rational to the nearest integer, ties to even
(the mode used by `round` and float formatting). -/
def rndHalfEven (q : ℚ) : ℤ :=
  let f := Int.floor q
  let r := q - f
  if r < 1 / 2 then f
  else if 1 / 2 < r then f + 1
  else if f % 2 = 0 then f else f + 1

/-- Python `round(q, ndigits)` on the rational model of a float. -/
def pyRound (ndigits : Nat) (q : ℚ) : ℚ :=
  (rndHalfEven (q * (10 ^ ndigits : ℚ)) : ℚ) / (10 ^ ndigits : ℚ)

/-- social_ingest._compute_weight: zero when the naive score is zero,
otherwise `round(base * (1 + likes*0.02 + reposts*0.05), 4)` with None and
negative counters clamped to 0. -/
def computeWeight (post : SocialPost) : ℚ :=
  if naive_sentiment post.text = 0 then 0
  else
    pyRound 4 (naive_sentiment post.text *
      (1 + ((max 0 (post.like_count.getD 0) : ℤ) : ℚ) * (2 / 100)
         + ((max 0 (post.repost_count.getD 0) : ℤ) : ℚ) * (5 / 100)))

/-- social_ingest._engagement_level. -/
def engagementLevel (post : SocialPost) : String :=
  if 60 ≤ max 0 (post.like_count.getD 0) ∨ 20 ≤ max 0 (post.repost_count.getD 0) then
    "high"
  else if 25 ≤ max 0 (post.like_count.getD 0) ∨ 8 ≤ max 0 (post.repost_count.getD 0) then
    "medium"
  else "low"

/-- social_ingest._annotate_posts. -/
def annotatePosts (posts : List SocialPost) : List SocialPost :=
  posts.map fun post =>
    { post with weight := some (computeWeight post),
                engagement_level := some (engagementLevel post) }

/-- The display dict built by social_ingest._top_posts for one post. -/
structure TopPost where
  id : String
  author : String
  created_at : String
  text : String
  url : String
  weight : ℚ
  sentiment : String
  like_count : Option Int
  repost_count : Option Int
  engagement_level : Option String
deriving Repr, DecidableEq

/-- social_ingest._top_posts: rank by absolute weight descending (stable)
and keep the first `limit`. -/
def topPosts (posts : List SocialPost) (limit : Nat) : List TopPost :=
  let ranked := pySort
    (fun a b => decide (abs (b.weight.getD 0) ≤ abs (a.weight.getD 0))) posts
  (ranked.take limit).map fun post =>
    let weight := pyRound 2 (post.weight.getD 0)
    { id := post.id, author := post.author, created_at := post.created_at,
      text := post.text, url := post.url, weight := weight,
      sentiment :=
        if 0 < weight then "bullish" else if weight < 0 then "bearish" else "neutral",
      like_count := post.like_count, repost_count := post.repost_count,
      engagement_level := post.engagement_level }

/-- Python-dict counter increment used for the engagement breakdown. -/
def bumpCount (m : List (String × Nat)) (k : String) : List (String × Nat) :=
  if m.any (fun p => p.1 == k) then
    m.map fun p => if p.1 == k then (p.1, p.2 + 1) else p
  else m ++ [(k, 1)]

/-- Lookup with default 0 (`dict.get(k, 0)`). -/
def lookupCount (m : List (String × Nat)) (k : String) : Nat :=
  match m.find? (fun p => p.1 == k) with
  | some p => p.2
  | none => 0

/-- The dict returned by social_ingest.summarize_sentiment (`top_posts` is
added by ingest_social afterwards; it starts empty here). -/
structure SentimentSummary where
  posts : Nat
  bullish_score : ℚ
  bearish_score : ℚ
  net_score : ℚ
  bullish_posts : Nat
  bearish_posts : Nat
  neutral_posts : Nat
  engagement_breakdown : List (String × Nat)
  top_posts : List TopPost
deriving Repr, DecidableEq

/-- Accumulator of summarize_sentiment's loop. -/
structure SummarizeState where
  total : Nat
  bullish : ℚ
  bearish : ℚ
  bullish_posts : Nat
  bearish_posts : Nat
  neutral_posts : Nat
  engagement_breakdown : List (String × Nat)
deriving Repr, DecidableEq

/-- One iteration of summarize_sentiment's loop. -/
def summarizeStep (st : SummarizeState) (post : SocialPost) : SummarizeState :=
  let weight := match post.weight with
    | some w => w
    | none => naive_sentiment post.text
  let level := match post.engagement_level with
    | some l => if l = "" then "low" else l
    | none => "low"
  let st := { st with
    total := st.total + 1
    engagement_breakdown := bumpCount st.engagement_breakdown level }
  if 0 < weight then
    { st with bullish := st.bullish + weight, bullish_posts := st.bullish_posts + 1 }
  else if weight < 0 then
    { st with bearish := st.bearish + abs weight, bearish_posts := st.bearish_posts + 1 }
  else
    { st with neutral_posts := st.neutral_posts + 1 }

/-- social_ingest.summarize_sentiment. -/
def summarize_sentiment (posts : List SocialPost) : SentimentSummary :=
  let st := posts.foldl summarizeStep
    ⟨0, 0, 0, 0, 0, 0, [("high", 0), ("medium", 0), ("low", 0)]⟩
  { posts := st.total,
    bullish_score := pyRound 2 st.bullish,
    bearish_score := pyRound 2 st.bearish,
    net_score := pyRound 2 (st.bullish - st.bearish),
    bullish_posts := st.bullish_posts,
    bearish_posts := st.bearish_posts,
    neutral_posts := st.neutral_posts,
    engagement_breakdown := st.engagement_breakdown,
    top_posts := [] }

/-- Hexadecimal digit value for percent decoding. -/
def hexDigitVal (c : Char) : Option Nat :=
  if '0' ≤ c ∧ c ≤ '9' then some (c.toNat - 48)
  else if 'a' ≤ c ∧ c ≤ 'f' then some (c.toNat - 87)
  else if 'A' ≤ c ∧ c ≤ 'F' then some (c.toNat - 55)
  else none

/-- `urllib.parse.unquote` over single-byte percent escapes (invalid escapes
are left untouched, as unquote does). -/
def pctDecodeAux : List Char → List Char
  | [] => []
  | '%' :: h1 :: h2 :: rest =>
    match hexDigitVal h1, hexDigitVal h2 with
    | some a, some b => Char.ofNat (16 * a + b) :: pctDecodeAux rest
    | _, _ => '%' :: pctDecodeAux (h1 :: h2 :: rest)
  | c :: rest => c :: pctDecodeAux rest

/-- twitter_auth.normalize_bearer_token: trim, unwrap matching quotes,
percent-decode when a `%` is present. -/
def normalize_bearer_token (value : Option String) : Option String :=
  match value with
  | none => none
  | some v =>
    if v = "" then none
    else
      let token := pyStrip v
      let token :=
        if 2 ≤ token.length ∧ token.toList.head? = token.toList.getLast? ∧
            (token.toList.head? = some '\'' ∨ token.toList.head? = some '"') then
          pyStrip (String.mk ((token.toList.drop 1).dropLast))
        else token
      let token :=
        if token.toList.contains '%' then
          let decoded := String.mk (pctDecodeAux token.toList)
          if decoded ≠ "" then decoded else token
        else token
      if token = "" then none else some token

/-- A tweet object of the Twitter recent-search response, with
`public_metrics` already passed through `_safe_int`. -/
structure Tweet where
  id : String
  author_id : Option String
  created_at : Option String
  text : String
  like_count : Option Int
  reply_count : Option Int
  retweet_count : Option Int
deriving Repr, DecidableEq

/-- An entry of `includes.users`. -/
structure TwUser where
  id : String
  username : String
deriving Repr, DecidableEq

/-- One decoded HTTP response of the Twitter recent-search pagination loop. -/
inductive TwResponse where
  | netError : TwResponse
  | rateLimited : TwResponse
  | httpError (code : Nat) : TwResponse
  | ok (data : List Tweet) (users : List TwUser) (next_token : Option String) : TwResponse
deriving Repr, DecidableEq

/-- A StockTwits message as read by fetch_stocktwits_symbol. -/
structure StMessage where
  id : Option Nat
  body : String
  created_at : Option String
  username : String
  sourceUrl : Option String
deriving Repr, DecidableEq

/-- A bar of the Alpha Vantage daily series (only the fields ingest_social
reads). -/
structure AlphaBar where
  time : Option String
  close : Option ℚ
deriving Repr, DecidableEq

/-- The meta dict of fetch_daily_series_bulk. -/
structure AlphaMeta where
  note : Option String
  error : Option String
  last_refreshed : Option String
deriving Repr, DecidableEq

/-- One value of the fetch_daily_series_bulk result map. -/
structure AlphaPayload where
  series : List AlphaBar
  meta : AlphaMeta
deriving Repr, DecidableEq

/-- The per-symbol price snapshot dict.  Optional fields model missing keys;
TradingView's integer epoch timestamp is modelled by its decimal string
(only presence/truthiness of the key matters to the logic).  `history = []`
models an absent history key. -/
structure PriceSnap where
  close : Option ℚ
  change_abs : Option ℚ
  change_pct : Option ℚ
  volume : Option ℚ
  timestamp : Option String
  tradingview_symbol : Option String
  source : Option String
  currency : Option String
  history : List AlphaBar
  history_resolution : Option String
  history_source : Option String
  history_lookback_hours : Option Nat
  history_note : Option String
  history_error : Option String
  history_last_refreshed : Option String
deriving Repr, DecidableEq

/-- `tv_metrics.get(symbol_key, {})`. -/
def emptyPriceSnap : PriceSnap :=
  ⟨none, none, none, none, none, none, none, none, [], none, none, none, none, none, none⟩

/-- `dict.setdefault(key, value)` on an optional field. -/
def setDefault {α : Type} (field : Option α) (v : α) : Option α :=
  match field with
  | some x => some x
  | none => some v

/-- One history entry appended per symbol per ingest cycle (lines 436-447). -/
structure HistEntry where
  timestamp : String
  net_score : ℚ
  bullish_score : ℚ
  bearish_score : ℚ
  posts : Nat
  change_pct : Option ℚ
  close : Option ℚ
  volume : Option ℚ
deriving Repr, DecidableEq

/-- The per-symbol block of the persisted social store. -/
structure SymbolBlock where
  summary : SentimentSummary
  posts : List SocialPost
  history : List HistEntry
  price : PriceSnap
deriving Repr, DecidableEq

/-- The persisted social store payload
`{generated_at, symbols: {...}, history: {...}}`. -/
structure SocialPayload where
  generated_at : String
  symbols : List (String × SymbolBlock)
  history : List (String × List HistEntry)
deriving Repr, DecidableEq

/-- Python `l[-n:]`. -/
def takeLast {α : Type} (n : Nat) (l : List α) : List α := l.drop (l.length - n)

/-- The external collaborators of one ingest_social run.  Each function is
the decoded data a network call or fixture read would produce during the run;
`none` encodes a request that raised or returned a non-200 status inside its
own guarded fetcher. -/
structure SocialEnv where
  rawBearerToken : Option String
  twitterResponses : String → List TwResponse
  sampleData : String → List SocialPost
  stocktwits : String → Option (List StMessage)
  tv : String → Option PriceSnap
  alpha : String → Option AlphaPayload
  parseIsoUtc : String → Option String
  nowIso : String

/-- The symbol normalization `symbol.strip().lstrip("$").upper()` shared by
fetch_x_symbol_posts and fetch_stocktwits_symbol. -/
def normalizeSymbol (symbol : String) : String :=
  pyUpper (pyLstrip ['$'] (pyStrip symbol))

/-- social_ingest._sample_social_posts via sample_social_data: the fixture
oracle already holds well-formed posts (malformed fixture entries are skipped
by the TypeError guard at load time), and the caller always passes
`limit=None`, so no truncation happens. -/
def samplePosts (env : SocialEnv) (normalizedSymbol : String) : List SocialPost :=
  env.sampleData normalizedSymbol

/-- The tweet-to-SocialPost conversion inside _query_posts_twitter_api
(lines 180-206).  `env.parseIsoUtc` stands for
`datetime.fromisoformat` + `_iso_utc` (None on ValueError, in which case
`datetime.utcnow()` i.e. `env.nowIso` is used). -/
def convertTweet (env : SocialEnv) (sym : String) (users : List TwUser) (tweet : Tweet) :
    SocialPost :=
  let username := match tweet.author_id with
    | some aid =>
      if aid ≠ "" then
        match users.find? (fun u => u.id == aid) with
        | some u => u.username
        | none => ""
      else ""
    | none => ""
  let created_at := match tweet.created_at with
    | some s =>
      if s ≠ "" then
        match env.parseIsoUtc (pyReplace s "Z" "+00:00") with
        | some iso => iso
        | none => env.nowIso
      else env.nowIso
    | none => env.nowIso
  { id := tweet.id, source := "x", symbol := sym, author := username,
    url :=
      if username ≠ "" then "https://twitter.com/" ++ username ++ "/status/" ++ tweet.id
      else "https://twitter.com/i/web/status/" ++ tweet.id,
    created_at := created_at, text := tweet.text,
    like_count := tweet.like_count, reply_count := tweet.reply_count,
    repost_count := tweet.retweet_count, weight := none, engagement_level := none }

/-- Exit kind of the pagination while-loop: `direct` is a `return` statement
inside the loop (no `[:limit]` truncation), `broke` falls out of the loop to
the final `return posts[:limit]`. -/
inductive TwExit where
  | direct (posts : List SocialPost) : TwExit
  | broke (posts : List SocialPost) : TwExit
deriving Repr, DecidableEq

/-- The while-loop of _query_posts_twitter_api (lines 142-211): one response
is consumed per iteration; `remaining = 0` ends the loop, exhausting the
response oracle is modelled as a network error.  On 429 the partial `posts`
accumulated so far are returned; on a network error or another non-200
status the result is empty. -/
def twLoop (env : SocialEnv) (sym : String) (limit : Nat) :
    List TwResponse → Nat → List SocialPost → TwExit
  | _, 0, posts => TwExit.broke posts
  | [], _ + 1, _ => TwExit.direct []
  | resp :: rest, _ + 1, posts =>
    match resp with
    | TwResponse.netError => TwExit.direct []
    | TwResponse.rateLimited => TwExit.direct posts
    | TwResponse.httpError _ => TwExit.direct []
    | TwResponse.ok data users next_token =>
      if data = [] then TwExit.broke posts
      else
        let posts := posts ++ data.map (convertTweet env sym users)
        match next_token with
        | none => TwExit.broke posts
        | some _ => twLoop env sym limit rest (limit - posts.length) posts

/-- social_ingest._query_posts_twitter_api.  The query/paging parameters
(`lookback_hours`, `max_results`, `next_token`) only shape the HTTP requests
and are absorbed into the response oracle. -/
def queryPostsTwitterApi (env : SocialEnv) (sym : String) (limit : Nat) :
    List SocialPost :=
  match twLoop env sym limit (env.twitterResponses sym) (max 1 limit) [] with
  | TwExit.direct posts => posts
  | TwExit.broke posts => posts.take limit

/-- social_ingest.fetch_x_symbol_posts: without a usable bearer token the
sample fixture is used when non-empty; with a token the Twitter API result is
used when non-empty, otherwise the sample fixture, otherwise empty. -/
def fetch_x_symbol_posts (env : SocialEnv) (symbol : String) (limit : Nat) :
    List SocialPost :=
  let normalizedSymbol := normalizeSymbol symbol
  match normalize_bearer_token env.rawBearerToken with
  | none =>
    let sample := samplePosts env normalizedSymbol
    if sample ≠ [] then annotatePosts sample else []
  | some _ =>
    let posts := queryPostsTwitterApi env normalizedSymbol limit
    if posts ≠ [] then annotatePosts posts
    else
      let sample := samplePosts env normalizedSymbol
      if sample ≠ [] then annotatePosts sample else []

/-- social_ingest.fetch_stocktwits_symbol.  `env.stocktwits` is the decoded
message list (`none` when the request raised or returned non-200).
A falsy message id yields an empty id and url, as the source's truthiness
tests do. -/
def fetch_stocktwits_symbol (env : SocialEnv) (symbol : String) (limit : Nat) :
    List SocialPost :=
  let sym := normalizeSymbol symbol
  match env.stocktwits sym with
  | none => []
  | some msgs =>
    annotatePosts ((msgs.take limit).map fun m =>
      let midTruthy := m.id.getD 0 ≠ 0
      { id := if midTruthy then toString (m.id.getD 0) else "",
        source := "stocktwits", symbol := sym, author := m.username,
        url :=
          if midTruthy then
            match m.sourceUrl with
            | some u =>
              if u ≠ "" then u
              else "https://stocktwits.com/" ++ m.username ++ "/message/"
                ++ toString (m.id.getD 0)
            | none => "https://stocktwits.com/" ++ m.username ++ "/message/"
                ++ toString (m.id.getD 0)
          else "",
        created_at := match m.created_at with
          | some ca => if ca ≠ "" then ca else env.nowIso
          | none => env.nowIso,
        text := m.body, like_count := none, reply_count := none,
        repost_count := none, weight := none, engagement_level := none })

/-- The per-symbol post resolution of ingest_social (lines 381-390):
fetch_x_symbol_posts, then StockTwits only when that yields nothing. -/
def resolvePosts (env : SocialEnv) (sym : String) (maxPosts : Nat) : List SocialPost :=
  let posts := fetch_x_symbol_posts env sym maxPosts
  if posts = [] then fetch_stocktwits_symbol env sym maxPosts else posts

/-- The price-snapshot enrichment of ingest_social (lines 402-433): the
TradingView snapshot seeds the dict, the Alpha Vantage daily series fills
gaps via `setdefault` and supplies the history fields. -/
def enrichPrice (tv : Option PriceSnap) (alphaPayload : Option AlphaPayload) : PriceSnap :=
  let ps := tv.getD emptyPriceSnap
  let alphaHistory := match alphaPayload with
    | some p => p.series
    | none => []
  let alphaMeta := match alphaPayload with
    | some p => p.meta
    | none => ⟨none, none, none⟩
  let ps := match alphaHistory.getLast? with
    | none => ps
    | some latest =>
      let prev := if 1 < alphaHistory.length then alphaHistory.dropLast.getLast? else none
      let closeVal := latest.close
      let ps := match closeVal with
        | some cv => { ps with close := setDefault ps.close (pyRound 2 cv) }
        | none => ps
      let ps := match prev with
        | some pbar =>
          match pbar.close with
          | some pc =>
            if pc ≠ 0 then
              let delta := closeVal.getD 0 - pc
              let ps := { ps with change_abs := setDefault ps.change_abs (pyRound 2 delta) }
              { ps with change_pct := setDefault ps.change_pct (pyRound 2 (delta / pc * 100)) }
            else ps
          | none => ps
        | none => ps
      let ps := match latest.time with
        | some ts =>
          if ts ≠ "" ∧ (ps.timestamp = none ∨ ps.timestamp = some "") then
            { ps with timestamp := some ts }
          else ps
        | none => ps
      let ps := { ps with
        history := alphaHistory
        history_resolution := some "1d"
        history_source := some "alphavantage"
        history_lookback_hours := some (alphaHistory.length * 24) }
      let ps := { ps with currency := setDefault ps.currency "USD" }
      { ps with source := setDefault ps.source "alphavantage" }
  let ps := match alphaMeta.note with
    | some n => if n ≠ "" then { ps with history_note := some n } else ps
    | none => ps
  let ps := match alphaMeta.error with
    | some e => if e ≠ "" then { ps with history_error := some e } else ps
    | none => ps
  match alphaMeta.last_refreshed with
  | some lr => if lr ≠ "" then { ps with history_last_refreshed := some lr } else ps
  | none => ps

/-- The enriched summary dict for one symbol (lines 391-398): the engagement
breakdown re-normalized to the three fixed keys, and top_posts attached. -/
def symbolSummary (env : SocialEnv) (sym : String) (maxPosts : Nat) : SentimentSummary :=
  let posts := resolvePosts env sym maxPosts
  let summary0 := summarize_sentiment posts
  { summary0 with
    engagement_breakdown :=
      [("high", lookupCount summary0.engagement_breakdown "high"),
       ("medium", lookupCount summary0.engagement_breakdown "medium"),
       ("low", lookupCount summary0.engagement_breakdown "low")]
    top_posts := topPosts posts 5 }

/-- The enriched price snapshot for one symbol (lines 402-433). -/
def symbolPrice (env : SocialEnv) (sym : String) : PriceSnap :=
  enrichPrice (env.tv (pyUpper sym)) (env.alpha (pyUpper sym))

/-- The history entry built for one symbol in one cycle (lines 436-447). -/
def cycleEntry (env : SocialEnv) (sym : String) (maxPosts : Nat) : HistEntry :=
  { timestamp := env.nowIso,
    net_score := (symbolSummary env sym maxPosts).net_score,
    bullish_score := (symbolSummary env sym maxPosts).bullish_score,
    bearish_score := (symbolSummary env sym maxPosts).bearish_score,
    posts := (symbolSummary env sym maxPosts).posts,
    change_pct := (symbolPrice env sym).change_pct,
    close := (symbolPrice env sym).close,
    volume := (symbolPrice env sym).volume }

/-- The updated history list for one symbol in one cycle: append the fresh
entry to the symbol's existing entries and keep the most recent
MAX_HISTORY_POINTS (line 448). -/
def newSymbolHistory (env : SocialEnv) (maxPosts : Nat)
    (hist : List (String × List HistEntry)) (sym : String) : List HistEntry :=
  takeLast MAX_HISTORY_POINTS
    ((assocGet hist (pyUpper sym)).getD [] ++ [cycleEntry env sym maxPosts])

/-- The body of ingest_social's per-symbol loop (lines 378-455), threading
the history map and the fresh results map; the per-symbol computations are
factored into the named functions above. -/
def socialStep (env : SocialEnv) (maxPosts : Nat)
    (st : List (String × List HistEntry) × List (String × SymbolBlock)) (sym : String) :
    List (String × List HistEntry) × List (String × SymbolBlock) :=
  if sym = "" then st
  else
    (assocSet st.1 (pyUpper sym) (newSymbolHistory env maxPosts st.1 sym),
     assocSet st.2 (pyUpper sym)
       { summary := symbolSummary env sym maxPosts,
         posts := resolvePosts env sym maxPosts,
         history := newSymbolHistory env maxPosts st.1 sym,
         price := symbolPrice env sym })

/-- The symbol normalization of ingest_social's line 371:
`[s.strip().lstrip("$") for s in symbols if s and s.strip()]`. -/
def normalizedSymbolsOf (symbols : List String) : List String :=
  symbols.filterMap fun s =>
    if s ≠ "" ∧ pyStrip s ≠ "" then some (pyLstrip ['$'] (pyStrip s)) else none

/-- `existing_payload.get("history", {}) or {}` (missing or corrupt files
already became `{}`). -/
def existingHistoryOf (existing : Option SocialPayload) : List (String × List HistEntry) :=
  match existing with
  | some payload => payload.history
  | none => []

/-- social_ingest.ingest_social.  `existing` is the parsed persisted store
(`none` when the file is missing or corrupt, which the source catches and
treats as `{}`); the result is the payload written back, atomically, as the
whole new store.  `lookback_hours` only shapes the Twitter request and is
absorbed into the response oracle. -/
def ingest_social (env : SocialEnv) (existing : Option SocialPayload)
    (symbols : List String) (maxPosts : Nat) : SocialPayload :=
  let st := (normalizedSymbolsOf symbols).foldl (socialStep env maxPosts)
    (existingHistoryOf existing, [])
  { generated_at := env.nowIso, symbols := st.2, history := st.1 }

/-- Repeated ingest cycles over the same symbol list: each cycle reads the
payload the previous one persisted (the environment, i.e. the network, may
differ per cycle). -/
def ingestCycles (envs : List SocialEnv) (symbols : List String) (maxPosts : Nat)
    (init : Option SocialPayload) : Option SocialPayload :=
  envs.foldl (fun st env => some (ingest_social env st symbols maxPosts)) init

end FinPulse


namespace FinPulse

/-!  Concrete inputs used by the verification witnesses and counterexamples. -/

/-- A bullish post with engagement. -/
def c5Post : SocialPost :=
  { id := "w1", source := "x", symbol := "SPY", author := "a", url := "u",
    created_at := "2024-01-01T00:00:00+00:00", text := "going to the moon",
    like_count := some 10, reply_count := none, repost_count := some 2,
    weight := none, engagement_level := none }

/-- A bundled sample-fixture post for TSLA. -/
def c9SamplePost : SocialPost :=
  { id := "s1", source := "x", symbol := "TSLA", author := "demo", url := "u",
    created_at := "2024-01-01T00:00:00+00:00", text := "bullish on this",
    like_count := some 3, reply_count := some 0, repost_count := some 1,
    weight := none, engagement_level := none }

/-- A StockTwits message the secondary API would return. -/
def c9StMessage : StMessage :=
  { id := some 7, body := "bearish, sell", created_at := some "2024-01-01T00:00:00Z",
    username := "st", sourceUrl := none }

/-- A run in which a bearer token is configured, the Twitter API returns an
empty page, the sample fixture has a TSLA post, and StockTwits has data. -/
def c9Env : SocialEnv :=
  { rawBearerToken := some "token1234",
    twitterResponses := fun _ => [TwResponse.ok [] [] none],
    sampleData := fun s => if s = "TSLA" then [c9SamplePost] else [],
    stocktwits := fun _ => some [c9StMessage],
    tv := fun _ => none,
    alpha := fun _ => none,
    parseIsoUtc := fun s => some s,
    nowIso := "2024-01-02T00:00:00+00:00" }

/-- A fully offline run: no token, empty fixture, failing StockTwits. -/
def c4Env : SocialEnv :=
  { rawBearerToken := none,
    twitterResponses := fun _ => [],
    sampleData := fun _ => [],
    stocktwits := fun _ => none,
    tv := fun _ => none,
    alpha := fun _ => none,
    parseIsoUtc := fun _ => none,
    nowIso := "2024-01-02T00:00:00+00:00" }

/-- A history entry of an earlier run. -/
def c10OldEntry : HistEntry :=
  { timestamp := "2024-01-01T00:00:00+00:00", net_score := 1, bullish_score := 1,
    bearish_score := 0, posts := 1, change_pct := none, close := none, volume := none }

/-- An existing persisted store holding history for a symbol OLD that the
next call does not ingest. -/
def c10Existing : SocialPayload :=
  { generated_at := "2024-01-01T00:00:00+00:00", symbols := [],
    history := [("OLD", [c10OldEntry])] }

end FinPulse

namespace FinPulse

/-!  services/macro_trends.py: the fallback metric catalogue, the
MacroTrendsService builders, and the module-level cache used by
get_macro_trends.  The FRED and EIA HTTP endpoints are supplied as oracles
in a `MacroEnv`: an oracle returns `none` when the request would raise
(network error or non-2xx status), and observation values are given as
`Option ℚ` — the value `_to_float` would produce, `none` when the raw
field is not a number. -/

/-- The `insights` block of a metric dictionary. -/
structure Insights where
  overview : String
  high : String
  low : String
  range : String
deriving Repr, DecidableEq

/-- One point of a metric `history` array: `{"date": ..., "value": ...}`. -/
structure MacroPoint where
  date : String
  value : ℚ
deriving Repr, DecidableEq

/-- A metric dictionary.  `summary`, `delta`, `insights` and `history` are
`Option`s because the code builds dictionaries in which these keys can be
absent (`metric.pop("delta", None)`, fallbacks without `history`, the
unknown-metric fallback without `summary`/`insights`); `id`, `name` and
`detail` are present in every metric the module constructs. -/
structure Metric where
  id : String
  name : String
  summary : Option String
  detail : String
  delta : Option String
  insights : Option Insights
  history : Option (List MacroPoint)
deriving Repr, DecidableEq

/-- One category of the payload: `{"id", "title", "metrics"}`. -/
structure MacroCategory where
  id : String
  title : String
  metrics : List Metric
deriving Repr, DecidableEq

/-- The payload built by MacroTrendsService.fetch:
`{"updated": ..., "categories": ...}`. -/
structure MacroPayload where
  updated : String
  categories : List MacroCategory
deriving Repr, DecidableEq

/-- One FRED observation as consumed by the module: its `date` string and
the `Option ℚ` that `_to_float(obs["value"])` yields (`none` for the "."
placeholder FRED uses for missing values). -/
structure FredObs where
  date : String
  value : Option ℚ
deriving Repr, DecidableEq

/-- One row of an EIA v2 response `response.data` array. -/
structure EiaEntry where
  period : String
  value : Option ℚ
  units : Option String
  seriesDescription : Option String
deriving Repr, DecidableEq

/-- The parts of a decoded EIA v2 response that `_eia_series` reads. -/
structure EiaRaw where
  frequency : Option String
  data : List EiaEntry
deriving Repr, DecidableEq

/-- The `meta` dictionary `_eia_series` returns (all `.get`s below may be
None). -/
structure EiaMeta where
  frequency : Option String
  units : Option String
  description : Option String
deriving Repr, DecidableEq

/-- The external collaborators of the macro module: the FRED and EIA
endpoints (`none` = request raises), `datetime.utcnow().isoformat()` and
`time.time()` at the moment of the call. -/
structure MacroEnv where
  fredOracle : String → Nat → Option (List FredObs)
  eiaOracle : String → Nat → Option EiaRaw
  nowIso : String
  now : ℚ

/-- macro_trends.MacroTrendsService: the two API keys (empty string =
unconfigured, the dataclass defaults) plus the environment the session's
requests run against. -/
structure MacroTrendsService where
  fred_api_key : String
  eia_api_key : String
  env : MacroEnv

/-- macro_trends.FALLBACK_CATEGORIES: the bundled static default metrics
used metric-by-metric when a live source is unavailable or a key is
absent.  `summary`, `delta`, `insights` and `history` are `Option`s: `none`
models an absent dictionary key. -/
def FALLBACK_CATEGORIES : List MacroCategory := [
  { id := "job-market"
    title := "Job Market"
    metrics := [
      { id := "unemployment-rate"
        name := "Unemployment rate"
        summary := some "3.8%"
        detail := "Unemployment remains historically low with only a marginal uptick versus the prior month."
        delta := some "Change vs prior month: +0.1pp"
        insights := some
          { overview := "Share of the labour force that is jobless but actively seeking work. A lower rate signals a tighter labour market."
            high := "Above roughly 6% typically reflects slack demand for labour and rising recession risk as layoffs broaden."
            low := "Below about 4% indicates a very tight market where employers may struggle to hire, often pressuring wages higher."
            range := "Post-2000 range has spanned ~3.5% at the trough to ~10% during recessions." }
        history := none },
      { id := "initial-jobless-claims"
        name := "Initial jobless claims"
        summary := some "~230k weekly"
        detail := "Initial claims continue to hover near cycle lows, underscoring a resilient labour market."
        delta := none
        insights := some
          { overview := "Weekly number of people filing for unemployment insurance for the first time—a timely layoff proxy."
            high := "Sustained readings above ~300k suggest layoffs are accelerating and labour demand is cooling quickly."
            low := "Prints nearer 200k or below imply employers are holding on to workers and demand remains firm."
            range := "Since 2000 the series has oscillated between ~170k (tight) and above 650k (severe downturn)." }
        history := none },
      { id := "nonfarm-payrolls"
        name := "Nonfarm payrolls"
        summary := some "+187k"
        detail := "Payroll growth cooled from the prior month but still exceeds the pre-pandemic trendline."
        delta := none
        insights := some
          { overview := "Monthly change in the number of employees on business payrolls, excluding farm workers."
            high := "Gains north of ~250k indicate robust hiring momentum and strengthening growth."
            low := "Flat or negative prints point to hiring freezes or layoffs, often preceding economic slowdowns."
            range := "Typical expansion pace is +150k to +200k per month; severe recessions can see -700k or worse." }
        history := none } ]
  },
  { id := "inflation"
    title := "Inflation"
    metrics := [
      { id := "cpi-yoy"
        name := "CPI (YoY)"
        summary := some "3.2%"
        detail := "Headline CPI edged higher on energy while core services inflation stays sticky."
        delta := none
        insights := some
          { overview := "Annual percentage change in the consumer price index covering a broad basket of goods and services."
            high := "Readings above ~4% signal elevated inflation that can erode purchasing power and prompt tighter policy."
            low := "Rates near 2% are consistent with the Fed\x27s long-run goal; below 1% can point to disinflationary pressure."
            range := "In the last two decades CPI YoY has ranged from ~-2% (deflation scare) to over 9% (2022 energy shock)." }
        history := none },
      { id := "core-cpi-yoy"
        name := "Core CPI (YoY)"
        summary := some "4.1%"
        detail := "Core CPI eased modestly thanks to softer shelter and used car prices."
        delta := none
        insights := some
          { overview := "Headline CPI excluding food and energy—favoured for gauging underlying inflation trends."
            high := "Above ~4% suggests broad-based price pressures that are harder to tame without policy tightening."
            low := "Close to 2% aligns with stable inflation; below 1.5% may hint that demand is softening materially."
            range := "Core CPI has mostly stayed between 1% and 6% since 2000, rarely spiking into double digits." }
        history := none },
      { id := "ppi-mom"
        name := "PPI (MoM)"
        summary := some "+0.2%"
        detail := "Producer prices climbed on higher goods costs while services categories softened."
        delta := none
        insights := some
          { overview := "Monthly change in producer prices received by domestic firms—often feeds into consumer inflation with a lag."
            high := "Moves of +0.5% or higher can foreshadow pipeline cost pressure and future CPI acceleration."
            low := "Flat or negative prints imply easing cost pressure; persistent declines may flag demand weakness."
            range := "Typical month-to-month swings land between -0.5% and +0.8%, though energy shocks can push beyond." }
        history := none } ]
  },
  { id := "economic-activities"
    title := "Economic Activities"
    metrics := [
      { id := "industrial-production"
        name := "Industrial production index"
        summary := some "103.9"
        detail := "Industrial production continues to edge higher thanks to firmer factory output and steady utilities demand."
        delta := some "Change vs prior month: +0.2%"
        insights := some
          { overview := "Composite index of real output for manufacturing, mining, and utilities (2017 = 100)."
            high := "Levels above ~105 signal activity running meaningfully above the 2017 base-year average."
            low := "Drops below ~95 often coincide with industrial slowdowns or recessionary conditions."
            range := "Over the last decade the index has ranged roughly from 90 (pandemic trough) to 110 (late-cycle peaks)." }
        history := none },
      { id := "retail-sales"
        name := "Retail sales (advance)"
        summary := some "$704B"
        detail := "Consumer spending remains resilient with broad-based gains across goods and dining."
        delta := some "Change vs prior month: +0.4%"
        insights := some
          { overview := "Early estimate of total monthly sales for retail and food services, a key barometer of consumer demand."
            high := "Monthly growth north of 1% (after inflation) indicates a very strong consumer impulse."
            low := "Consecutive declines or growth below 0% can warn that discretionary spending is rolling over."
            range := "Nominal sales trend higher over time; monthly percentage changes typically sit between -2% and +2%." }
        history := none },
      { id := "housing-starts"
        name := "Housing starts"
        summary := some "1,360k"
        detail := "Housing starts softened slightly as higher mortgage rates weigh on single-family demand."
        delta := some "Change vs prior month: -30k"
        insights := some
          { overview := "Annualised number of new residential construction projects that broke ground during the month."
            high := "Activity above ~1.5 million units signals healthy builder confidence and housing demand."
            low := "Readings under ~1.1 million often coincide with housing recessions or tight financing conditions."
            range := "Since 2000 starts have swung from ~500k at the crisis low to over 2 million during the housing boom." }
        history := none },
      { id := "consumer-sentiment"
        name := "Consumer sentiment (UMich)"
        summary := some "68.0"
        detail := "Household sentiment stabilised as labour-market confidence offsets price concerns."
        delta := some "Change vs prior month: +0.5"
        insights := some
          { overview := "University of Michigan survey index capturing households’ views on current conditions and expectations."
            high := "Prints above ~90 reflect upbeat consumers and typically align with strong spending trends."
            low := "Sub-70 readings suggest caution and often appear when inflation or employment worries intensify."
            range := "Historically oscillates between the mid-50s (deep pessimism) and low-100s (strong optimism)." }
        history := none } ]
  },
  { id := "energy"
    title := "Energy Markets"
    metrics := [
      { id := "wti-crude"
        name := "WTI crude oil"
        summary := some "$84.00"
        detail := "West Texas Intermediate spot prices remain range-bound amid global supply adjustments."
        delta := some "Change vs prior day: +0.50"
        insights := some
          { overview := "Benchmark U.S. crude oil price traded in Cushing, Oklahoma—drives gasoline and input costs."
            high := "Prices above ~$90/bbl can strain consumers and boost inflation, often reflecting supply tightness."
            low := "Below ~$60/bbl typically eases fuel costs but may signal global growth worries or surplus supply."
            range := "The past decade has seen swings from sub-$20 (2020 collapse) to above $120 during supply shocks." }
        history := none },
      { id := "natural-gas"
        name := "Henry Hub natural gas"
        summary := some "$2.50"
        detail := "Benchmark U.S. natural gas prices hover near recent averages as storage stays ample."
        delta := some "Change vs prior day: -0.05"
        insights := some
          { overview := "Spot price for natural gas at the Henry Hub in Louisiana, a key reference for U.S. gas markets."
            high := "Above ~$5/MMBtu usually reflects tight supply or extreme weather demand spikes."
            low := "Below ~$2/MMBtu suggests oversupply and can pressure producer profitability."
            range := "Since 2010 Henry Hub prices have mostly ranged between $2 and $6, with brief spikes above $9." }
        history := none },
      { id := "retail-gasoline"
        name := "US regular gasoline"
        summary := some "$3.50"
        detail := "Retail unleaded gasoline prices remain steady nationwide with regional variation."
        delta := some "Change vs prior week: -0.02"
        insights := some
          { overview := "Average U.S. pump price for regular gasoline—closely watched by consumers and policymakers."
            high := "Sustained moves above ~$3.75/gal often squeeze household budgets and can dampen discretionary spending."
            low := "Below ~$2.75/gal eases pressure and acts like a tax cut for consumers."
            range := "Past-decade prices have oscillated between roughly $1.75 and $4.25 per gallon." }
        history := none } ]
  } ]

/-- `FALLBACK_METRIC_INDEX.get(category, {}).get(metric_id)` as a lookup in
the catalogue (the index is built from the catalogue by id). -/
def fallback_metric_lookup (category metricId : String) : Option Metric :=
  (FALLBACK_CATEGORIES.find? fun c => c.id == category).bind
    fun c => c.metrics.find? fun m => m.id == metricId

/-- Python `str.title()` for the ASCII model: a letter is uppercased when
the previous character is not a letter, lowercased otherwise. -/
def pyTitleAux : List Char → Bool → List Char
  | [], _ => []
  | c :: t, prevAlpha =>
    if c.isAlpha then
      (if prevAlpha then c.toLower else c.toUpper) :: pyTitleAux t true
    else c :: pyTitleAux t false

/-- Python `str.title()`. -/
def pyTitle (s : String) : String := String.mk (pyTitleAux s.toList false)

/-- macro_trends.MacroTrendsService._fallback_metric: a copy of the indexed
fallback metric, or the minimal "Data unavailable." dictionary when the id
is unknown. -/
def fallback_metric (category metricId : String) : Metric :=
  match fallback_metric_lookup category metricId with
  | some m => m
  | none =>
    { id := metricId
      name := pyTitle (pyReplace metricId "-" " ")
      summary := none
      detail := "Data unavailable."
      delta := none
      insights := none
      history := none }

/-- macro_trends.MacroTrendsService._fred_observations: empty without a
key; otherwise the decoded `observations` array, empty when the request
raises.  The limit is clamped to `max(1, min(limit, 100))`. -/
def fred_observations (s : MacroTrendsService) (seriesId : String) (limit : Nat) :
    List FredObs :=
  if s.fred_api_key = "" then []
  else
    match s.env.fredOracle seriesId (max 1 (min limit 100)) with
    | none => []
    | some observations => observations

/-- The row loop of `_eia_series`: keep rows whose value parses, taking the
first available `units` and `series-description` along the way. -/
def eiaCollect : List EiaEntry → Option String → Option String →
    List MacroPoint × Option String × Option String
  | [], units, descr => ([], units, descr)
  | e :: t, units, descr =>
    match e.value with
    | none => eiaCollect t units descr
    | some v =>
      let units2 := match units with
        | some u => some u
        | none => e.units
      let descr2 := match descr with
        | some d => some d
        | none => e.seriesDescription
      match eiaCollect t units2 descr2 with
      | (pts, u, d) => ({ date := e.period, value := v } :: pts, u, d)

/-- macro_trends.MacroTrendsService._eia_series: `([], {})` without a key or
on a failed request; otherwise the parsed points of `response.data[:limit]`
together with the meta dictionary. -/
def eia_series (s : MacroTrendsService) (seriesId : String) (limit : Nat) :
    List MacroPoint × EiaMeta :=
  if s.eia_api_key = "" then
    ([], { frequency := none, units := none, description := none })
  else
    match s.env.eiaOracle seriesId (max 1 (min limit 100)) with
    | none => ([], { frequency := none, units := none, description := none })
    | some raw =>
      match eiaCollect (raw.data.take (max 1 (min limit 100))) none none with
      | (pts, units, descr) =>
        (pts, { frequency := raw.frequency, units := units, description := descr })

/-- macro_trends.MacroTrendsService._eia_history: the points sorted by date
ascending (Python's stable `sorted`), trimmed to the last `points`, values
rounded to 4 digits. -/
def eia_history (s : MacroTrendsService) (seriesId : String) (points : Nat) :
    List MacroPoint :=
  match eia_series s seriesId (max points 3) with
  | (rows, _) =>
    if rows = [] then []
    else
      (takeLast points (pySort (fun a b => decide (a.date ≤ b.date)) rows)).map
        fun e => { date := e.date, value := pyRound 4 e.value }

/-- The month abbreviations of `strftime("%b")` (C locale). -/
def MONTH_ABBREV : List String :=
  ["Jan", "Feb", "Mar", "Apr", "May", "Jun",
   "Jul", "Aug", "Sep", "Oct", "Nov", "Dec"]

/-- `strftime("%b")` for a 1-based month. -/
def monthAbbrev (m : Nat) : String := MONTH_ABBREV.getD (m - 1) ""

/-- `strftime("%d")`: the day zero-padded to two digits. -/
def pad2 (n : Nat) : String := if n < 10 then "0" ++ toString n else toString n

/-- `strptime(value, "%Y%m%d")` on the compact pattern, read as fixed-width
fields (Python also accepts some non-padded forms); the day must exist in
the month. -/
def parseYmdCompact (s : String) : Option (Nat × Nat × Nat) :=
  match s.toList with
  | [y1, y2, y3, y4, m1, m2, d1, d2] =>
    match digitsToNat (String.mk [y1, y2, y3, y4]), digitsToNat (String.mk [m1, m2]),
        digitsToNat (String.mk [d1, d2]) with
    | some y, some m, some d =>
      if decide (1 ≤ m) && decide (m ≤ 12) && decide (1 ≤ d)
          && decide (d ≤ daysInMonth y m) then
        some (y, m, d)
      else none
    | _, _, _ => none
  | _ => none

/-- `strptime(value, "%Y-%m")`. -/
def parseYmDash (s : String) : Option (Nat × Nat) :=
  match splitOnChar '-' s with
  | [ys, ms] =>
    match digitsToNat ys, digitsToNat ms with
    | some y, some m =>
      if decide (1 ≤ m) && decide (m ≤ 12) && decide (ys.length ≤ 4)
          && decide (ms.length ≤ 2) then
        some (y, m)
      else none
    | _, _ => none
  | _ => none

/-- `strptime(value, "%Y%m")` on the compact pattern, fixed-width. -/
def parseYmCompact (s : String) : Option (Nat × Nat) :=
  match s.toList with
  | [y1, y2, y3, y4, m1, m2] =>
    match digitsToNat (String.mk [y1, y2, y3, y4]), digitsToNat (String.mk [m1, m2]) with
    | some y, some m =>
      if decide (1 ≤ m) && decide (m ≤ 12) then some (y, m) else none
    | _, _ => none
  | _ => none

/-- `strptime(value, "%Y")`: exactly four digits. -/
def parseYearOnly (s : String) : Option Nat :=
  if s.length = 4 then digitsToNat s else none

/-- macro_trends.MacroTrendsService._format_date: try the five strptime
patterns in order and render with the matching strftime pattern; fall back
to the raw value, with "latest" for a missing or empty date. -/
def format_date (raw : Option String) : String :=
  match raw with
  | none => "latest"
  | some v =>
    if v = "" then "latest"
    else
      match parseYmd v with
      | some (y, m, d) => monthAbbrev m ++ " " ++ pad2 d ++ ", " ++ toString y
      | none =>
        match parseYmdCompact v with
        | some (y, m, d) => monthAbbrev m ++ " " ++ pad2 d ++ ", " ++ toString y
        | none =>
          match parseYmDash v with
          | some (y, m) => monthAbbrev m ++ " " ++ toString y
          | none =>
            match parseYmCompact v with
            | some (y, m) => monthAbbrev m ++ " " ++ toString y
            | none =>
              match parseYearOnly v with
              | some y => toString y
              | none => v

/-- macro_trends.MacroTrendsService._period_label. -/
def period_label (freq : Option String) : String :=
  match freq with
  | none => "period"
  | some f =>
    if f = "" then "period"
    else
      let n := pyUpper (pyStrip f)
      if n = "D" ∨ n = "DAILY" then "day"
      else if n = "W" ∨ n = "WEEKLY" then "week"
      else if n = "M" ∨ n = "MONTHLY" then "month"
      else if n = "Q" ∨ n = "QUARTERLY" then "quarter"
      else if n = "A" ∨ n = "ANNUAL" ∨ n = "ANN" then "year"
      else "period"

/-- Thousands grouping over a reversed digit list (`k` digits already
emitted). -/
def commaRev : List Char → Nat → List Char
  | [], _ => []
  | c :: t, k =>
    if k ≠ 0 ∧ k % 3 = 0 then ',' :: c :: commaRev t (k + 1)
    else c :: commaRev t (k + 1)

/-- Python `format(n, ",")` for a natural number. -/
def groupNat (n : Nat) : String :=
  String.mk ((commaRev (toString n).toList.reverse 0).reverse)

/-- Python `f"{n:,}"` for an integer. -/
def groupInt (n : ℤ) : String :=
  if n < 0 then "-" ++ groupNat n.natAbs else groupNat n.toNat

/-- Left-pad a digit string with zeros to `d` characters. -/
def padZeros (d : Nat) (s : String) : String :=
  String.mk (List.replicate (d - s.length) '0') ++ s

/-- CPython fixed-point formatting of the rational model of a float:
`f"\x7bq:.df\x7d"` (and the `+` / `,` flag variants).  The magnitude is
rounded half-even at `d` decimals; a negative value keeps its sign even
when it rounds to zero. -/
def qFmt (comma signed : Bool) (d : Nat) (q : ℚ) : String :=
  let m : Nat := (rndHalfEven (|q| * ((10 : ℚ) ^ d))).toNat
  let intPart : Nat := m / 10 ^ d
  let fracPart : Nat := m % 10 ^ d
  let sign := if q < 0 then "-" else if signed then "+" else ""
  let ip := if comma then groupNat intPart else toString intPart
  let fp := if d = 0 then "" else "." ++ padZeros d (toString fracPart)
  sign ++ ip ++ fp

/-- macro_trends.MacroTrendsService._yoy_change: year-over-year growth from
observation 0 vs 12, and the prior pace from 1 vs 13 when available. -/
def yoy_change (s : MacroTrendsService) (seriesId : String) :
    Option (String × ℚ × Option ℚ) :=
  let observations := fred_observations s seriesId 14
  if observations.length < 13 then none
  else
    match observations.get? 0, observations.get? 12 with
    | some latest, some comp =>
      match latest.value, comp.value with
      | some latestVal, some compVal =>
        if compVal = 0 then none
        else
          let priorYoy : Option ℚ :=
            if 14 ≤ observations.length then
              match observations.get? 1, observations.get? 13 with
              | some prev, some prevComp =>
                match prev.value, prevComp.value with
                | some prevVal, some prevCompVal =>
                  if prevCompVal = 0 then none
                  else some (((prevVal - prevCompVal) / prevCompVal) * 100)
                | _, _ => none
              | _, _ => none
            else none
          some (latest.date, ((latestVal - compVal) / compVal) * 100, priorYoy)
      | _, _ => none
    | _, _ => none

/-- macro_trends.MacroTrendsService._mom_change: month-over-month growth
from observation 0 vs 1, and the prior change from 1 vs 2 when available. -/
def mom_change (s : MacroTrendsService) (seriesId : String) :
    Option (String × ℚ × Option ℚ) :=
  let observations := fred_observations s seriesId 3
  if observations.length < 2 then none
  else
    match observations.get? 0, observations.get? 1 with
    | some latest, some prev =>
      match latest.value, prev.value with
      | some latestVal, some prevVal =>
        if prevVal = 0 then none
        else
          let priorMom : Option ℚ :=
            if 3 ≤ observations.length then
              match observations.get? 2 with
              | some prevPrev =>
                match prevPrev.value with
                | some prevPrevVal =>
                  if prevPrevVal = 0 then none
                  else some (((prevVal - prevPrevVal) / prevPrevVal) * 100)
                | none => none
              | none => none
            else none
          some (latest.date, ((latestVal - prevVal) / prevVal) * 100, priorMom)
      | _, _ => none
    | _, _ => none

/-- The `transform` argument of `_fred_series_history` (the call sites pass
`None`, "yoy_pct", "mom_pct" or "diff"). -/
inductive FredTransform where
  | level
  | yoy_pct
  | mom_pct
  | diff
deriving Repr, DecidableEq

/-- `apply_scale` inside `_fred_series_history`. -/
def applyScale (scale : Option ℚ) (v : ℚ) : ℚ :=
  match scale with
  | none => v
  | some s => if s = 0 then v else v / s

/-- One offset comparison pass of `_fred_series_history`: pair each
observation (oldest-first) with the one `off` places earlier and keep the
rows where `f` produces a value. -/
def fredPairRecords (off : Nat) (f : ℚ → ℚ → Option ℚ) (scale : Option ℚ)
    (obsSorted : List FredObs) : List MacroPoint :=
  ((obsSorted.drop off).zip obsSorted).filterMap fun p =>
    match p.1.value, p.2.value with
    | some cur, some cmp =>
      match f cur cmp with
      | some v => some { date := p.1.date, value := pyRound 4 (applyScale scale v) }
      | none => none
    | _, _ => none

/-- macro_trends.MacroTrendsService._fred_series_history. -/
def fred_series_history (s : MacroTrendsService) (seriesId : String) (points : Nat)
    (transform : FredTransform) (scale : Option ℚ) : List MacroPoint :=
  if s.fred_api_key = "" then []
  else
    let extra := match transform with
      | .yoy_pct => 12
      | .mom_pct => 1
      | .diff => 1
      | .level => 0
    let observations := fred_observations s seriesId (points + extra + 4)
    if observations = [] then []
    else
      let obsSorted := observations.reverse
      let records := match transform with
        | .yoy_pct => fredPairRecords 12
            (fun cur cmp => if cmp = 0 then none else some (((cur - cmp) / cmp) * 100))
            scale obsSorted
        | .mom_pct => fredPairRecords 1
            (fun cur prev => if prev = 0 then none else some (((cur - prev) / prev) * 100))
            scale obsSorted
        | .diff => fredPairRecords 1 (fun cur prev => some (cur - prev)) scale obsSorted
        | .level => obsSorted.filterMap fun obs =>
            obs.value.map fun v => { date := obs.date, value := pyRound 4 (applyScale scale v) }
      if records = [] then [] else takeLast points records

/-- `if units:` / `if description:` — a string dictionary value is truthy
when present and non-empty. -/
def optTruthy (o : Option String) : Option String :=
  match o with
  | some "" => none
  | x => x

/-- macro_trends.MacroTrendsService._build_unemployment_metric. -/
def build_unemployment_metric (s : MacroTrendsService) : Metric :=
  let metric := fallback_metric "job-market" "unemployment-rate"
  match fred_observations s "UNRATE" 2 with
  | [] => metric
  | latest :: rest =>
    match latest.value with
    | none => metric
    | some latestValue =>
      let prevValue : Option ℚ := match rest with
        | [] => none
        | p :: _ => p.value
      let detail1 := "Unemployment rate for " ++ format_date (some latest.date)
        ++ " was " ++ qFmt false false 1 latestValue ++ "% (seasonally adjusted)."
      match prevValue with
      | some prevVal =>
        { metric with
          summary := some (qFmt false false 1 latestValue ++ "%")
          detail := detail1 ++ " Prior month reading: " ++ qFmt false false 1 prevVal ++ "%."
          delta := some ("Change vs prior month: "
            ++ qFmt false true 1 (latestValue - prevVal) ++ "pp")
          history := some (fred_series_history s "UNRATE" 36 .level none) }
      | none =>
        { metric with
          summary := some (qFmt false false 1 latestValue ++ "%")
          detail := detail1
          delta := none
          history := some (fred_series_history s "UNRATE" 36 .level none) }

/-- macro_trends.MacroTrendsService._build_claims_metric. -/
def build_claims_metric (s : MacroTrendsService) : Metric :=
  let metric := fallback_metric "job-market" "initial-jobless-claims"
  match fred_observations s "ICSA" 2 with
  | [] => metric
  | latest :: rest =>
    match latest.value with
    | none => metric
    | some latestValue =>
      let prevValue : Option ℚ := match rest with
        | [] => none
        | p :: _ => p.value
      let detail1 := "Initial jobless claims for the week ending "
        ++ format_date (some latest.date) ++ " were " ++ groupInt (rndHalfEven latestValue)
        ++ " (seasonally adjusted)."
      match prevValue with
      | some prevVal =>
        { metric with
          summary := some (groupInt (rndHalfEven latestValue))
          detail := detail1
          delta := some ("Change vs prior week: " ++ qFmt true true 0 (latestValue - prevVal))
          history := some (fred_series_history s "ICSA" 30 .level none) }
      | none =>
        { metric with
          summary := some (groupInt (rndHalfEven latestValue))
          detail := detail1
          delta := none
          history := some (fred_series_history s "ICSA" 30 .level none) }

/-- macro_trends.MacroTrendsService._build_payrolls_metric. -/
def build_payrolls_metric (s : MacroTrendsService) : Metric :=
  let metric := fallback_metric "job-market" "nonfarm-payrolls"
  match fred_observations s "PAYEMS" 2 with
  | [] => metric
  | latest :: rest =>
    match latest.value with
    | none => metric
    | some latestValue =>
      let change : Option ℚ := match rest with
        | [] => none
        | p :: _ =>
          match p.value with
          | some prevVal => some (latestValue - prevVal)
          | none => none
      let detail1 := "Total nonfarm payroll employment reached "
        ++ qFmt true false 0 latestValue ++ "k in " ++ format_date (some latest.date) ++ "."
      match change with
      | some c =>
        { metric with
          summary := some (qFmt true true 0 c ++ "k")
          detail := detail1 ++ " Monthly change: " ++ qFmt true true 0 c ++ "k jobs."
          delta := some ("Total level: " ++ qFmt true false 0 latestValue ++ "k")
          history := some (fred_series_history s "PAYEMS" 30 .diff none) }
      | none =>
        { metric with
          summary := some (qFmt true false 0 latestValue ++ "k")
          detail := detail1
          delta := none
          history := some (fred_series_history s "PAYEMS" 30 .diff none) }

/-- macro_trends.MacroTrendsService._build_cpi_metric. -/
def build_cpi_metric (s : MacroTrendsService) (seriesId category metricId : String) :
    Metric :=
  let metric := fallback_metric category metricId
  match yoy_change s seriesId with
  | none => metric
  | some (date, yoyValue, priorYoy) =>
    let detail1 := metric.name ++ " for " ++ format_date (some date) ++ " registered "
      ++ qFmt false false 1 yoyValue ++ "% year-over-year growth."
    match priorYoy with
    | some prior =>
      { metric with
        summary := some (qFmt false false 1 yoyValue ++ "%")
        detail := detail1 ++ " Prior month pace: " ++ qFmt false false 1 prior ++ "%."
        delta := some ("Change vs prior month: " ++ qFmt false true 1 (yoyValue - prior) ++ "pp")
        history := some (fred_series_history s seriesId 30 .yoy_pct none) }
    | none =>
      { metric with
        summary := some (qFmt false false 1 yoyValue ++ "%")
        detail := detail1
        delta := none
        history := some (fred_series_history s seriesId 30 .yoy_pct none) }

/-- macro_trends.MacroTrendsService._build_ppi_metric. -/
def build_ppi_metric (s : MacroTrendsService) : Metric :=
  let metric := fallback_metric "inflation" "ppi-mom"
  match mom_change s "PPIACO" with
  | none => metric
  | some (date, momValue, priorMom) =>
    let detail1 := "Producer prices (" ++ format_date (some date) ++ ") moved "
      ++ qFmt false true 2 momValue ++ "% over the month."
    match priorMom with
    | some prior =>
      { metric with
        summary := some (qFmt false true 2 momValue ++ "%")
        detail := detail1 ++ " Previous monthly change: " ++ qFmt false true 2 prior ++ "%."
        delta := some ("Change vs prior month: " ++ qFmt false true 2 (momValue - prior) ++ "pp")
        history := some (fred_series_history s "PPIACO" 30 .mom_pct none) }
    | none =>
      { metric with
        summary := some (qFmt false true 2 momValue ++ "%")
        detail := detail1
        delta := none
        history := some (fred_series_history s "PPIACO" 30 .mom_pct none) }

/-- macro_trends.MacroTrendsService._build_wti_metric. -/
def build_wti_metric (s : MacroTrendsService) : Metric :=
  let metric := fallback_metric "energy" "wti-crude"
  match eia_series s "PET.RWTC.D" 2 with
  | (points, meta) =>
    match points with
    | [] => metric
    | latest :: rest =>
      let periodLabel := period_label meta.frequency
      let detail1 := "WTI crude oil spot price on " ++ format_date (some latest.date)
        ++ " was $" ++ qFmt false false 2 latest.value
        ++ (match optTruthy meta.units with
            | some u => " (" ++ u ++ ")."
            | none => " per barrel.")
      let detail2 := match rest with
        | [] => detail1
        | prev :: _ =>
          detail1 ++ " Previous " ++ periodLabel ++ ": $" ++ qFmt false false 2 prev.value ++ "."
      let detail3 := match optTruthy meta.description with
        | some d => detail2 ++ " " ++ d
        | none => detail2
      match rest with
      | prev :: _ =>
        { metric with
          summary := some ("$" ++ qFmt false false 2 latest.value)
          detail := detail3
          delta := some ("Change vs prior " ++ periodLabel ++ ": "
            ++ qFmt false true 2 (latest.value - prev.value))
          history := some (eia_history s "PET.RWTC.D" 90) }
      | [] =>
        { metric with
          summary := some ("$" ++ qFmt false false 2 latest.value)
          detail := detail3
          delta := none
          history := some (eia_history s "PET.RWTC.D" 90) }

/-- macro_trends.MacroTrendsService._build_natural_gas_metric. -/
def build_natural_gas_metric (s : MacroTrendsService) : Metric :=
  let metric := fallback_metric "energy" "natural-gas"
  match eia_series s "NG.RNGWHHD.D" 2 with
  | (points, meta) =>
    match points with
    | [] => metric
    | latest :: rest =>
      let periodLabel := period_label meta.frequency
      let detail1 := "Henry Hub natural gas price on " ++ format_date (some latest.date)
        ++ " settled at $" ++ qFmt false false 2 latest.value
        ++ (match optTruthy meta.units with
            | some u => " (" ++ u ++ ")."
            | none => " per MMBtu.")
      let detail2 := match rest with
        | [] => detail1
        | prev :: _ =>
          detail1 ++ " Previous " ++ periodLabel ++ ": $" ++ qFmt false false 2 prev.value ++ "."
      let detail3 := match optTruthy meta.description with
        | some d => detail2 ++ " " ++ d
        | none => detail2
      match rest with
      | prev :: _ =>
        { metric with
          summary := some ("$" ++ qFmt false false 2 latest.value)
          detail := detail3
          delta := some ("Change vs prior " ++ periodLabel ++ ": "
            ++ qFmt false true 2 (latest.value - prev.value))
          history := some (eia_history s "NG.RNGWHHD.D" 90) }
      | [] =>
        { metric with
          summary := some ("$" ++ qFmt false false 2 latest.value)
          detail := detail3
          delta := none
          history := some (eia_history s "NG.RNGWHHD.D" 90) }

/-- macro_trends.MacroTrendsService._build_retail_gasoline_metric. -/
def build_retail_gasoline_metric (s : MacroTrendsService) : Metric :=
  let metric := fallback_metric "energy" "retail-gasoline"
  match eia_series s "PET.EMM_EPMRR_PTE_NUS_DPG.W" 2 with
  | (points, meta) =>
    match points with
    | [] => metric
    | latest :: rest =>
      let periodLabel := period_label meta.frequency
      let detail1 := "US regular gasoline averaged $" ++ qFmt false false 2 latest.value
        ++ " during the week ending " ++ format_date (some latest.date)
        ++ (match optTruthy meta.units with
            | some u => " (" ++ u ++ ")."
            | none => " per gallon.")
      let detail2 := match rest with
        | [] => detail1
        | prev :: _ =>
          detail1 ++ " Previous " ++ periodLabel ++ ": $" ++ qFmt false false 2 prev.value ++ "."
      let detail3 := match optTruthy meta.description with
        | some d => detail2 ++ " " ++ d
        | none => detail2
      match rest with
      | prev :: _ =>
        { metric with
          summary := some ("$" ++ qFmt false false 2 latest.value)
          detail := detail3
          delta := some ("Change vs prior " ++ periodLabel ++ ": "
            ++ qFmt false true 2 (latest.value - prev.value))
          history := some (eia_history s "PET.EMM_EPMRR_PTE_NUS_DPG.W" 90) }
      | [] =>
        { metric with
          summary := some ("$" ++ qFmt false false 2 latest.value)
          detail := detail3
          delta := none
          history := some (eia_history s "PET.EMM_EPMRR_PTE_NUS_DPG.W" 90) }

/-- macro_trends.MacroTrendsService._build_industrial_production_metric. -/
def build_industrial_production_metric (s : MacroTrendsService) : Metric :=
  let metric := fallback_metric "economic-activities" "industrial-production"
  match fred_observations s "INDPRO" 2 with
  | [] => metric
  | latest :: rest =>
    match latest.value with
    | none => metric
    | some latestValue =>
      let detail1 := "Industrial production index (2017 = 100) reached "
        ++ qFmt false false 1 latestValue ++ " in " ++ format_date (some latest.date) ++ "."
      let prevValue : Option ℚ := match rest with
        | [] => none
        | p :: _ => p.value
      match prevValue with
      | some prevVal =>
        if prevVal = 0 then
          { metric with
            summary := some (qFmt false false 1 latestValue)
            detail := detail1
            delta := none
            history := some (fred_series_history s "INDPRO" 36 .level none) }
        else
          { metric with
            summary := some (qFmt false false 1 latestValue)
            detail := detail1 ++ " Prior month level: " ++ qFmt false false 1 prevVal ++ "."
            delta := some ("Change vs prior month: "
              ++ qFmt false true 2 (((latestValue - prevVal) / prevVal) * 100) ++ "%")
            history := some (fred_series_history s "INDPRO" 36 .level none) }
      | none =>
        { metric with
          summary := some (qFmt false false 1 latestValue)
          detail := detail1
          delta := none
          history := some (fred_series_history s "INDPRO" 36 .level none) }

/-- macro_trends.MacroTrendsService._build_retail_sales_metric (values in
millions; the summary is shown in billions). -/
def build_retail_sales_metric (s : MacroTrendsService) : Metric :=
  let metric := fallback_metric "economic-activities" "retail-sales"
  match fred_observations s "RSAFS" 2 with
  | [] => metric
  | latest :: rest =>
    match latest.value with
    | none => metric
    | some latestValue =>
      let detail1 := "Advance retail and food services sales totalled $"
        ++ qFmt false false 1 (latestValue / 1000) ++ "B in "
        ++ format_date (some latest.date) ++ "."
      let prevValue : Option ℚ := match rest with
        | [] => none
        | p :: _ => p.value
      match prevValue with
      | some prevVal =>
        if prevVal = 0 then
          { metric with
            summary := some ("$" ++ qFmt false false 1 (latestValue / 1000) ++ "B")
            detail := detail1
            delta := none
            history := some (fred_series_history s "RSAFS" 36 .level (some 1000)) }
        else
          { metric with
            summary := some ("$" ++ qFmt false false 1 (latestValue / 1000) ++ "B")
            detail := detail1 ++ " Prior month: $" ++ qFmt false false 1 (prevVal / 1000) ++ "B."
            delta := some ("Change vs prior month: "
              ++ qFmt false true 2 (((latestValue - prevVal) / prevVal) * 100) ++ "%")
            history := some (fred_series_history s "RSAFS" 36 .level (some 1000)) }
      | none =>
        { metric with
          summary := some ("$" ++ qFmt false false 1 (latestValue / 1000) ++ "B")
          detail := detail1
          delta := none
          history := some (fred_series_history s "RSAFS" 36 .level (some 1000)) }

/-- macro_trends.MacroTrendsService._build_housing_starts_metric. -/
def build_housing_starts_metric (s : MacroTrendsService) : Metric :=
  let metric := fallback_metric "economic-activities" "housing-starts"
  match fred_observations s "HOUST" 2 with
  | [] => metric
  | latest :: rest =>
    match latest.value with
    | none => metric
    | some latestValue =>
      let detail1 := "Housing starts were " ++ qFmt true false 0 latestValue
        ++ "k (annual rate) in " ++ format_date (some latest.date) ++ "."
      let prevValue : Option ℚ := match rest with
        | [] => none
        | p :: _ => p.value
      match prevValue with
      | some prevVal =>
        { metric with
          summary := some (qFmt true false 0 latestValue ++ "k")
          detail := detail1 ++ " Prior month: " ++ qFmt true false 0 prevVal ++ "k."
          delta := some ("Change vs prior month: "
            ++ qFmt true true 0 (latestValue - prevVal) ++ "k")
          history := some (fred_series_history s "HOUST" 36 .level none) }
      | none =>
        { metric with
          summary := some (qFmt true false 0 latestValue ++ "k")
          detail := detail1
          delta := none
          history := some (fred_series_history s "HOUST" 36 .level none) }

/-- macro_trends.MacroTrendsService._build_consumer_sentiment_metric. -/
def build_consumer_sentiment_metric (s : MacroTrendsService) : Metric :=
  let metric := fallback_metric "economic-activities" "consumer-sentiment"
  match fred_observations s "UMCSENT" 2 with
  | [] => metric
  | latest :: rest =>
    match latest.value with
    | none => metric
    | some latestValue =>
      let detail1 := "University of Michigan consumer sentiment read "
        ++ qFmt false false 1 latestValue ++ " in " ++ format_date (some latest.date) ++ "."
      let prevValue : Option ℚ := match rest with
        | [] => none
        | p :: _ => p.value
      match prevValue with
      | some prevVal =>
        { metric with
          summary := some (qFmt false false 1 latestValue)
          detail := detail1 ++ " Prior month: " ++ qFmt false false 1 prevVal ++ "."
          delta := some ("Change vs prior month: " ++ qFmt false true 1 (latestValue - prevVal))
          history := some (fred_series_history s "UMCSENT" 36 .level none) }
      | none =>
        { metric with
          summary := some (qFmt false false 1 latestValue)
          detail := detail1
          delta := none
          history := some (fred_series_history s "UMCSENT" 36 .level none) }

/-- macro_trends.MacroTrendsService._build_job_market_metrics. -/
def build_job_market_metrics (s : MacroTrendsService) : List Metric :=
  [build_unemployment_metric s, build_claims_metric s, build_payrolls_metric s]

/-- macro_trends.MacroTrendsService._build_inflation_metrics. -/
def build_inflation_metrics (s : MacroTrendsService) : List Metric :=
  [build_cpi_metric s "CPIAUCSL" "inflation" "cpi-yoy",
   build_cpi_metric s "CPILFESL" "inflation" "core-cpi-yoy",
   build_ppi_metric s]

/-- macro_trends.MacroTrendsService._build_economic_activity_metrics. -/
def build_economic_activity_metrics (s : MacroTrendsService) : List Metric :=
  [build_industrial_production_metric s, build_retail_sales_metric s,
   build_housing_starts_metric s, build_consumer_sentiment_metric s]

/-- macro_trends.MacroTrendsService._build_energy_metrics. -/
def build_energy_metrics (s : MacroTrendsService) : List Metric :=
  [build_wti_metric s, build_natural_gas_metric s, build_retail_gasoline_metric s]

/-- macro_trends.MacroTrendsService.fetch: the four fixed categories with
their builder outputs, stamped with the current UTC time. -/
def MacroTrendsService.fetch (s : MacroTrendsService) : MacroPayload :=
  { updated := s.env.nowIso
    categories := [
      { id := "job-market"
        title := "Job Market"
        metrics := build_job_market_metrics s },
      { id := "inflation"
        title := "Inflation"
        metrics := build_inflation_metrics s },
      { id := "economic-activities"
        title := "Economic Activities"
        metrics := build_economic_activity_metrics s },
      { id := "energy"
        title := "Energy Markets"
        metrics := build_energy_metrics s } ] }

/-- macro_trends._build_macro_trends_payload: fetch through a service built
from the given keys. -/
def build_macro_trends_payload (env : MacroEnv) (fredApiKey eiaApiKey : String) :
    MacroPayload :=
  MacroTrendsService.fetch
    { fred_api_key := fredApiKey
      eia_api_key := eiaApiKey
      env := env }

/-- macro_trends._CACHE_TTL_SECONDS (2 hours). -/
def CACHE_TTL_SECONDS : ℤ := 2 * 60 * 60

/-- The module-level cache: `_CACHE_DATA` and `_CACHE_TIMESTAMP`. -/
structure MacroCache where
  data : Option MacroPayload
  timestamp : ℚ

/-- macro_trends._payload_has_timeseries: some metric has a non-empty
history array. -/
def payload_has_timeseries (payload : MacroPayload) : Bool :=
  payload.categories.any fun category =>
    category.metrics.any fun metric =>
      match metric.history with
      | some h => decide (0 < h.length)
      | none => false

/-- macro_trends._cache_expired: a `ttl_seconds` of None means the default
TTL, negative values clamp to 0, and a TTL of 0 disables expiry; an empty
cache counts as expired. -/
def cache_expired (ttlSeconds : Option ℤ) (now : ℚ) (cache : MacroCache) : Bool :=
  let ttl := match ttlSeconds with
    | none => CACHE_TTL_SECONDS
    | some t => max t 0
  if ttl = 0 then false
  else
    match cache.data with
    | none => true
    | some _ => decide ((ttl : ℚ) < now - cache.timestamp)

/-- The cached-payload branch of get_macro_trends (lines 1019-1023): the
payload served from the cache, `none` when a rebuild is required. -/
def servedCache (env : MacroEnv) (cache : MacroCache) (fred eia : String)
    (ttlSeconds : Option ℤ) (forceRefresh : Bool) : Option MacroPayload :=
  if forceRefresh then none
  else
    match cache.data with
    | none => none
    | some cached =>
      if cache_expired ttlSeconds env.now cache = false then
        if (fred = "" ∧ eia = "") ∨ payload_has_timeseries cached = true then some cached
        else none
      else none

/-- The outcome of one get_macro_trends call: the returned payload, the
module cache afterwards, and which branch returned (`rebuilt` is true
exactly when `_build_macro_trends_payload` ran). -/
structure MacroResult where
  payload : MacroPayload
  cache : MacroCache
  rebuilt : Bool

/-- macro_trends.get_macro_trends over an explicit module cache: keys are
stripped; without `use_cache` the cache is bypassed (and left untouched);
otherwise a fresh cached payload satisfying the credential/timeseries check
is served, and in every other case a new payload is built and written into
the cache. -/
def get_macro_trends (env : MacroEnv) (cache : MacroCache)
    (fredApiKey eiaApiKey : String) (useCache : Bool) (ttlSeconds : Option ℤ)
    (forceRefresh : Bool) : MacroResult :=
  if useCache = false then
    { payload := build_macro_trends_payload env (pyStrip fredApiKey) (pyStrip eiaApiKey)
      cache := cache
      rebuilt := true }
  else
    match servedCache env cache (pyStrip fredApiKey) (pyStrip eiaApiKey)
        ttlSeconds forceRefresh with
    | some cached =>
      { payload := cached
        cache := cache
        rebuilt := false }
    | none =>
      { payload := build_macro_trends_payload env (pyStrip fredApiKey) (pyStrip eiaApiKey)
        cache := { data := some (build_macro_trends_payload env (pyStrip fredApiKey)
                      (pyStrip eiaApiKey))
                   timestamp := env.now }
        rebuilt := true }


/-- A macro environment whose endpoints are all unreachable. -/
def c7Env : MacroEnv :=
  { fredOracle := fun _ _ => none
    eiaOracle := fun _ _ => none
    nowIso := "2024-05-01T00:00:00"
    now := 1000 }

/-- A MacroTrendsService with both API keys unset. -/
def c7Service : MacroTrendsService :=
  { fred_api_key := ""
    eia_api_key := ""
    env := c7Env }

/-- A macro environment for the cache checks (clock at 1000). -/
def c8Env : MacroEnv :=
  { fredOracle := fun _ _ => none
    eiaOracle := fun _ _ => none
    nowIso := "2024-05-01T00:00:00"
    now := 1000 }

/-- A cached payload holding one metric with a populated history array. -/
def c8Payload : MacroPayload :=
  { updated := "2024-04-30T23:00:00"
    categories := [
      { id := "job-market"
        title := "Job Market"
        metrics := [
          { id := "unemployment-rate"
            name := "Unemployment rate"
            summary := some "3.8%"
            detail := "Unemployment held steady."
            delta := none
            insights := none
            history := some [{ date := "2024-04-01", value := 38 / 10 }] } ] } ] }

/-- The module cache holding that payload, written 600 seconds ago. -/
def c8Cache : MacroCache :=
  { data := some c8Payload
    timestamp := 400 }

end FinPulse

namespace FinPulse

/-! Helper lemmas about stripping and dedupe_preserve_order. -/

theorem dropWhile_dropWhile (p : Char → Bool) (l : List Char) :
    (l.dropWhile p).dropWhile p = l.dropWhile p := by
  induction l with
  | nil => rfl
  | cons a t ih =>
    by_cases h : p a
    · rw [List.dropWhile_cons, if_pos h, ih]
    · rw [List.dropWhile_cons, if_neg h, List.dropWhile_cons, if_neg h]

theorem dropWhile_eq_cons_head (p : Char → Bool) (l : List Char) (c : Char) (t : List Char)
    (h : l.dropWhile p = c :: t) : p c = false := by
  induction l with
  | nil => simp at h
  | cons a s ih =>
    by_cases hp : p a
    · rw [List.dropWhile_cons, if_pos hp] at h
      exact ih h
    · rw [List.dropWhile_cons, if_neg hp] at h
      injection h with h1 h2
      subst h1
      simpa using hp

theorem trimLeft_stripChars (l : List Char) : trimLeft (stripChars l) = stripChars l := by
  unfold stripChars
  cases hyr : ((trimLeft l).reverse.dropWhile Char.isWhitespace).reverse with
  | nil => rfl
  | cons c t =>
    have h1 : (trimLeft l).reverse.takeWhile Char.isWhitespace ++
        (trimLeft l).reverse.dropWhile Char.isWhitespace = (trimLeft l).reverse :=
      List.takeWhile_append_dropWhile _ _
    have h3 := congrArg List.reverse h1
    rw [List.reverse_append, List.reverse_reverse, hyr] at h3
    have hc : Char.isWhitespace c = false := by
      refine dropWhile_eq_cons_head Char.isWhitespace l c
        (t ++ ((trimLeft l).reverse.takeWhile Char.isWhitespace).reverse) ?_
      rw [← List.cons_append, h3]
      rfl
    show List.dropWhile Char.isWhitespace (c :: t) = c :: t
    rw [List.dropWhile_cons, if_neg (by simp [hc])]

theorem stripChars_idem (l : List Char) : stripChars (stripChars l) = stripChars l := by
  conv_lhs => rw [show stripChars (stripChars l)
      = ((trimLeft (stripChars l)).reverse.dropWhile Char.isWhitespace).reverse from rfl]
  rw [trimLeft_stripChars l]
  rw [show (stripChars l).reverse = (trimLeft l).reverse.dropWhile Char.isWhitespace by
        rw [show stripChars l
            = ((trimLeft l).reverse.dropWhile Char.isWhitespace).reverse from rfl,
          List.reverse_reverse]]
  rw [dropWhile_dropWhile]
  rfl

theorem pyStrip_idem (s : String) : pyStrip (pyStrip s) = pyStrip s := by
  unfold pyStrip
  rw [show (String.mk (stripChars s.toList)).toList = stripChars s.toList from rfl]
  rw [stripChars_idem]

theorem contains_iff (l : List String) (a : String) : l.contains a = true ↔ a ∈ l :=
  List.elem_iff

theorem dedupeAux_clean (l : List String) : ∀ seen, TagClean seen (dedupeAux seen l) := by
  induction l with
  | nil =>
    intro seen
    refine ⟨?_, ?_, ?_⟩ <;> simp [dedupeAux]
  | cons it rest ih =>
    intro seen
    rw [dedupeAux]
    by_cases h0 : pyStrip it = ""
    · rw [if_pos h0]; exact ih seen
    · rw [if_neg h0]
      by_cases h1 : pyLower (pyStrip it) ∈ seen
      · rw [if_pos ((contains_iff _ _).mpr h1)]; exact ih seen
      · rw [if_neg (fun hc => h1 ((contains_iff _ _).mp hc))]
        obtain ⟨ihA, ihB, ihC⟩ := ih (pyLower (pyStrip it) :: seen)
        refine ⟨?_, ?_, ?_⟩
        · intro x hx
          rw [List.mem_cons] at hx
          rcases hx with rfl | hx
          · exact ⟨pyStrip_idem it, h0⟩
          · exact ihA x hx
        · rw [List.map_cons, List.nodup_cons]
          refine ⟨?_, ihB⟩
          intro hmem
          rw [List.mem_map] at hmem
          obtain ⟨y, hy, hylow⟩ := hmem
          exact (ihC y hy) (hylow ▸ List.mem_cons_self _ _)
        · intro x hx
          rw [List.mem_cons] at hx
          rcases hx with rfl | hx
          · exact h1
          · exact fun hmem => (ihC x hx) (List.mem_cons_of_mem _ hmem)

theorem dedupeAux_append (xs ys : List String) :
    ∀ seen, dedupeAux seen (xs ++ ys) =
      dedupeAux seen xs ++ dedupeAux (seenAfter seen xs) ys := by
  induction xs with
  | nil => intro seen; rfl
  | cons it rest ih =>
    intro seen
    rw [List.cons_append, dedupeAux, dedupeAux, seenAfter]
    by_cases h0 : pyStrip it = ""
    · rw [if_pos h0, if_pos h0, if_pos h0, ih]
    · rw [if_neg h0, if_neg h0, if_neg h0]
      by_cases h1 : pyLower (pyStrip it) ∈ seen
      · have hc := (contains_iff seen _).mpr h1
        rw [if_pos hc, if_pos hc, if_pos hc, ih]
      · have hc : ¬(seen.contains (pyLower (pyStrip it)) = true) :=
          fun hcc => h1 ((contains_iff _ _).mp hcc)
        rw [if_neg hc, if_neg hc, if_neg hc, List.cons_append, ih]

theorem dedupeAux_fixed (xs : List String) :
    ∀ seen, TagClean seen xs → dedupeAux seen xs = xs := by
  induction xs with
  | nil => intro seen _; rfl
  | cons x t ih =>
    intro seen hclean
    obtain ⟨hA, hB, hC⟩ := hclean
    obtain ⟨hxs, hxe⟩ := hA x (List.mem_cons_self _ _)
    rw [dedupeAux, hxs, if_neg hxe]
    have h1 : pyLower x ∉ seen := hC x (List.mem_cons_self _ _)
    rw [if_neg (fun hc => h1 ((contains_iff _ _).mp hc))]
    congr 1
    apply ih
    refine ⟨fun y hy => hA y (List.mem_cons_of_mem _ hy), ?_, ?_⟩
    · rw [List.map_cons, List.nodup_cons] at hB
      exact hB.2
    · intro y hy hmem
      rw [List.mem_cons] at hmem
      rcases hmem with h | h
      · rw [List.map_cons, List.nodup_cons] at hB
        exact hB.1 (h ▸ List.mem_map.mpr ⟨y, hy, rfl⟩)
      · exact (hC y (List.mem_cons_of_mem _ hy)) h

theorem seenAfter_mem (xs : List String) :
    ∀ seen y, y ∈ seenAfter seen xs ↔
      y ∈ seen ∨ ∃ x ∈ xs, pyStrip x ≠ "" ∧ pyLower (pyStrip x) = y := by
  induction xs with
  | nil => intro seen y; simp [seenAfter]
  | cons it rest ih =>
    intro seen y
    rw [seenAfter]
    by_cases h0 : pyStrip it = ""
    · rw [if_pos h0, ih]
      constructor
      · rintro (h | ⟨x, hx, hxs, hxl⟩)
        · exact Or.inl h
        · exact Or.inr ⟨x, List.mem_cons_of_mem _ hx, hxs, hxl⟩
      · rintro (h | ⟨x, hx, hxs, hxl⟩)
        · exact Or.inl h
        · rw [List.mem_cons] at hx
          rcases hx with rfl | hx
          · exact absurd h0 hxs
          · exact Or.inr ⟨x, hx, hxs, hxl⟩
    · rw [if_neg h0]
      by_cases h1 : pyLower (pyStrip it) ∈ seen
      · rw [if_pos ((contains_iff _ _).mpr h1), ih]
        constructor
        · rintro (h | ⟨x, hx, hxs, hxl⟩)
          · exact Or.inl h
          · exact Or.inr ⟨x, List.mem_cons_of_mem _ hx, hxs, hxl⟩
        · rintro (h | ⟨x, hx, hxs, hxl⟩)
          · exact Or.inl h
          · rw [List.mem_cons] at hx
            rcases hx with rfl | hx
            · exact Or.inl (hxl ▸ h1)
            · exact Or.inr ⟨x, hx, hxs, hxl⟩
      · rw [if_neg (fun hc => h1 ((contains_iff _ _).mp hc)), ih]
        constructor
        · rintro (h | ⟨x, hx, hxs, hxl⟩)
          · rw [List.mem_cons] at h
            rcases h with h | h
            · exact Or.inr ⟨it, List.mem_cons_self _ _, h0, h.symm⟩
            · exact Or.inl h
          · exact Or.inr ⟨x, List.mem_cons_of_mem _ hx, hxs, hxl⟩
        · rintro (h | ⟨x, hx, hxs, hxl⟩)
          · exact Or.inl (List.mem_cons_of_mem _ h)
          · rw [List.mem_cons] at hx
            rcases hx with rfl | hx
            · exact Or.inl (hxl ▸ List.mem_cons_self _ _)
            · exact Or.inr ⟨x, hx, hxs, hxl⟩

theorem dedupeAux_eq_nil (xs : List String) :
    ∀ seen, (∀ x ∈ xs, pyStrip x = "" ∨ pyLower (pyStrip x) ∈ seen) →
      dedupeAux seen xs = [] := by
  induction xs with
  | nil => intro seen _; rfl
  | cons it rest ih =>
    intro seen h
    rw [dedupeAux]
    by_cases h0 : pyStrip it = ""
    · rw [if_pos h0]
      exact ih seen fun x hx => h x (List.mem_cons_of_mem _ hx)
    · rw [if_neg h0]
      rcases h it (List.mem_cons_self _ _) with hbad | hmem
      · exact absurd hbad h0
      · rw [if_pos ((contains_iff _ _).mpr hmem)]
        exact ih seen fun x hx => h x (List.mem_cons_of_mem _ hx)

theorem dedupeAux_class_covered (l : List String) :
    ∀ seen y, (∃ x ∈ l, pyStrip x ≠ "" ∧ pyLower (pyStrip x) = y) →
      y ∈ seen ∨ ∃ x ∈ dedupeAux seen l, pyStrip x ≠ "" ∧ pyLower (pyStrip x) = y := by
  induction l with
  | nil =>
    rintro seen y ⟨x, hx, -, -⟩
    simp at hx
  | cons it rest ih =>
    rintro seen y ⟨x, hx, hxs, hxl⟩
    rw [List.mem_cons] at hx
    rw [dedupeAux]
    by_cases h0 : pyStrip it = ""
    · rw [if_pos h0]
      rcases hx with rfl | hx
      · exact absurd h0 hxs
      · exact ih seen y ⟨x, hx, hxs, hxl⟩
    · rw [if_neg h0]
      by_cases h1 : pyLower (pyStrip it) ∈ seen
      · rw [if_pos ((contains_iff _ _).mpr h1)]
        rcases hx with rfl | hx
        · exact Or.inl (hxl ▸ h1)
        · exact ih seen y ⟨x, hx, hxs, hxl⟩
      · rw [if_neg (fun hc => h1 ((contains_iff _ _).mp hc))]
        rcases hx with rfl | hx
        · refine Or.inr ⟨pyStrip x, List.mem_cons_self _ _, ?_, ?_⟩
          · rw [pyStrip_idem]; exact hxs
          · rw [pyStrip_idem]; exact hxl
        · rcases ih (pyLower (pyStrip it) :: seen) y ⟨x, hx, hxs, hxl⟩ with
            h | ⟨z, hz, hzs, hzl⟩
          · rw [List.mem_cons] at h
            rcases h with h | h
            · refine Or.inr ⟨pyStrip it, List.mem_cons_self _ _, ?_, ?_⟩
              · rw [pyStrip_idem]; exact h0
              · rw [pyStrip_idem]; exact h.symm
            · exact Or.inl h
          · exact Or.inr ⟨z, List.mem_cons_of_mem _ hz, hzs, hzl⟩

theorem take_take_len {α : Type} (l : List α) (n : Nat) : (l.take n).take n = l.take n :=
  List.take_of_length_le (by rw [List.length_take]; omega)

theorem tagClean_take (xs : List String) (n : Nat) (seen : List String)
    (h : TagClean seen xs) : TagClean seen (xs.take n) := by
  obtain ⟨hA, hB, hC⟩ := h
  refine ⟨fun x hx => hA x (List.mem_of_mem_take hx), ?_,
    fun x hx => hC x (List.mem_of_mem_take hx)⟩
  rw [List.map_take]
  exact hB.sublist (List.take_sublist _ _)

theorem dedupe_take_stable (B C : List String) (n : Nat) :
    (dedupe_preserve_order ((dedupe_preserve_order (B ++ C)).take n ++ C)).take n
      = (dedupe_preserve_order (B ++ C)).take n := by
  have hclean : TagClean [] (dedupeAux [] (B ++ C)) := dedupeAux_clean _ []
  have hcleanT : TagClean [] ((dedupeAux [] (B ++ C)).take n) := tagClean_take _ _ _ hclean
  unfold dedupe_preserve_order
  rw [dedupeAux_append, dedupeAux_fixed _ _ hcleanT, List.take_append_eq_append_take,
    take_take_len]
  by_cases hle : (dedupeAux [] (B ++ C)).length ≤ n
  · rw [List.take_of_length_le hle]
    have hnil : dedupeAux (seenAfter [] (dedupeAux [] (B ++ C))) C = [] := by
      apply dedupeAux_eq_nil
      intro c hc
      by_cases hcs : pyStrip c = ""
      · exact Or.inl hcs
      · right
        rw [seenAfter_mem]
        rcases dedupeAux_class_covered (B ++ C) [] (pyLower (pyStrip c))
            ⟨c, List.mem_append_right _ hc, hcs, rfl⟩ with h | ⟨z, hz, hzs, hzl⟩
        · simp at h
        · exact Or.inr ⟨z, hz, hzs, hzl⟩
    rw [hnil]
    simp
  · have hlen : ((dedupeAux [] (B ++ C)).take n).length = n := by
      rw [List.length_take]
      omega
    rw [hlen, Nat.sub_self, List.take_zero, List.append_nil]

theorem if_isEmpty_append (B C : List String) :
    (if B.isEmpty then C else B ++ C) = B ++ C := by
  cases B <;> simp

/-- C3: the tagger is idempotent.  For every title, summary, base tag list
and limit, feeding `auto_tags`' own output back in as `base` returns the
same tag list: there is no growth across repeated applications. -/
theorem auto_tags_idempotent (title summary : String) (T : List String) (limit : Nat) :
    auto_tags title summary (auto_tags title summary T limit) limit
      = auto_tags title summary T limit := by
  simp only [auto_tags, if_isEmpty_append]
  exact dedupe_take_stable T _ limit

/-! Permutation facts about the stable sort. -/

theorem insertStable_perm {α : Type} (le : α → α → Bool) (x : α) (l : List α) :
    (insertStable le x l).Perm (x :: l) := by
  induction l with
  | nil => exact List.Perm.refl _
  | cons y t ih =>
    rw [insertStable]
    by_cases h : le y x
    · rw [if_pos h]
      exact (ih.cons y).trans (List.Perm.swap x y t)
    · rw [if_neg h]

theorem pySort_foldl_perm {α : Type} (le : α → α → Bool) (l : List α) :
    ∀ acc, (l.foldl (fun acc x => insertStable le x acc) acc).Perm (acc ++ l) := by
  induction l with
  | nil => intro acc; simp
  | cons x t ih =>
    intro acc
    rw [List.foldl_cons]
    refine (ih (insertStable le x acc)).trans ?_
    refine (((insertStable_perm le x acc).append_right t).trans ?_)
    exact List.perm_middle.symm

theorem pySort_perm {α : Type} (le : α → α → Bool) (l : List α) : (pySort le l).Perm l := by
  simpa using pySort_foldl_perm le l []

theorem mem_pySort {α : Type} (le : α → α → Bool) (l : List α) (a : α) :
    a ∈ pySort le l ↔ a ∈ l := (pySort_perm le l).mem_iff

theorem length_pySort {α : Type} (le : α → α → Bool) (l : List α) :
    (pySort le l).length = l.length := (pySort_perm le l).length_eq

/-! Theorems about the news merge engine (C1, C2, C6). -/

theorem ingestCore_shape (today : String) (newRows0 existing : List Article) :
    ∃ rows, ingestCore today newRows0 existing = ⟨rows.length, NewsStore.valid rows⟩
      ∧ rows ≠ [] := by
  rw [ingestCore]
  split
  · exact ⟨[noNewsPlaceholder today], rfl, by simp⟩
  · split
    · exact ⟨[noRelevantNewsPlaceholder today], rfl, by simp⟩
    · rename_i h2
      exact ⟨_, rfl, fun hc => h2 (List.map_eq_nil_iff.mp hc)⟩

/-- C1 counterexample: with a corrupt persisted store (invalid JSON on disk),
`ingest_all` does not return a count — the JSONDecodeError raised by
`json.load` inside `NewsRepo._load_if_changed` propagates through
`repo.list_all()` to `ingest_all`'s caller, rather than being treated as "no
existing data". -/
theorem ingest_all_raises_on_corrupt_store :
    ingest_all [[], [], [], []] "2024-01-02" NewsStore.corrupt
      = Except.error PyError.jsonDecode := rfl

/-- C1 (amended): whenever the persisted store file holds readable JSON,
`ingest_all` returns a count and leaves the store in a valid, non-empty,
possibly placeholder state, the count being the number of persisted records
(provider failures are already absorbed into empty batches by the per-provider
try/except).  On a missing or corrupt store file the exception escaping
`repo.list_all()` propagates to the caller instead. -/
theorem ingest_all_total_on_valid_store (batches : List (List Article)) (today : String)
    (items : List Article) :
    ∃ n rows, ingest_all batches today (NewsStore.valid items)
        = Except.ok ⟨n, NewsStore.valid rows⟩ ∧ n = rows.length ∧ rows ≠ [] := by
  obtain ⟨rows, hr, hne⟩ :=
    ingestCore_shape today ((mergeById batches).map Prod.snd) (repoLoad items)
  refine ⟨rows.length, rows, ?_, rfl, hne⟩
  show Except.ok (ingestCore today ((mergeById batches).map Prod.snd) (repoLoad items))
    = Except.ok (⟨rows.length, NewsStore.valid rows⟩ : IngestResult)
  rw [hr]

/-- C2 counterexample: when no prior news store exists at all (the file is
absent), `ingest_all` with all-empty provider batches raises
FileNotFoundError from `self.path.stat()` inside `repo.list_all()` instead of
writing the System placeholder, so no one-record store is produced. -/
theorem ingest_all_errors_when_store_absent :
    ingest_all [[], [], [], []] "2024-01-02" NewsStore.absent
      = Except.error PyError.fileNotFound := rfl

/-- C2 (amended): if every provider batch is empty and the existing store
file holds an empty JSON array, `ingest_all` persists exactly one placeholder
record, whose category is "System", and returns count 1. -/
theorem ingest_all_empty_guard (batches : List (List Article)) (today : String)
    (h : ∀ b ∈ batches, b = []) :
    ingest_all batches today (NewsStore.valid [])
        = Except.ok ⟨1, NewsStore.valid [noNewsPlaceholder today]⟩
      ∧ (noNewsPlaceholder today).category = "System" := by
  have hmerge : mergeById batches = [] := by
    rw [mergeById]
    induction batches with
    | nil => rfl
    | cons b rest ih =>
      rw [List.foldl_cons, h b (List.mem_cons_self _ _)]
      exact ih fun x hx => h x (List.mem_cons_of_mem _ hx)
  refine ⟨?_, rfl⟩
  show Except.ok (ingestCore today ((mergeById batches).map Prod.snd) (repoLoad []))
    = Except.ok (⟨1, NewsStore.valid [noNewsPlaceholder today]⟩ : IngestResult)
  rw [hmerge]
  rfl

/-- C2 witness: the amended guard at a concrete input. -/
theorem ingest_all_empty_guard_witness :
    (∀ b ∈ ([[], [], [], []] : List (List Article)), b = []) ∧
      (ingest_all [[], [], [], []] "2024-01-02" (NewsStore.valid [])
          = Except.ok ⟨1, NewsStore.valid [noNewsPlaceholder "2024-01-02"]⟩
        ∧ (noNewsPlaceholder "2024-01-02").category = "System") :=
  ⟨by simp, ingest_all_empty_guard [[], [], [], []] "2024-01-02" (by simp)⟩

theorem relevant_implies_allowed (a : Article) (h : isRelevantArticle a = true) :
    allowedSource a.source = true := by
  rw [isRelevantArticle] at h
  by_cases h1 : pyLower a.category = "system"
  · rw [if_pos h1] at h
    exact absurd h (by simp)
  · rw [if_neg h1] at h
    by_cases h2 : allowedSource a.source = true
    · exact h2
    · rw [if_pos (by simp [Bool.not_eq_true] at h2 ⊢; exact h2)] at h
      exact absurd h (by simp)

theorem mem_ingestFinalRows_relevant (newRows0 existing : List Article) (b : Article)
    (hb : b ∈ ingestFinalRows newRows0 existing) : isRelevantArticle b = true := by
  simp only [ingestFinalRows] at hb
  rw [mem_pySort, List.mem_filter] at hb
  exact hb.2

/-- C6 counterexample: after a run with all-empty provider batches over an
empty store, the persisted store contains the placeholder record, whose
source "FinPulse" fails the allow-list check — so a record whose source fails
the allow-list can be present in the final persisted store. -/
theorem ingest_all_persists_non_allowlisted_placeholder :
    allowedSource (noNewsPlaceholder "2024-01-02").source = false ∧
      ingest_all [[], [], [], []] "2024-01-02" (NewsStore.valid [])
        = Except.ok ⟨1, NewsStore.valid [noNewsPlaceholder "2024-01-02"]⟩ := by
  constructor
  · decide
  · rfl

/-- C6 (amended): after any `ingest_all` run over a readable store, every
record in the final persisted store either passes the allow-list check or is
one of the synthetic "System" placeholder records written by the two guard
paths; in particular no provider record whose source fails the allow-list
survives, regardless of its keyword classification. -/
theorem ingest_all_allowlist_invariant (batches : List (List Article)) (today : String)
    (items : List Article) (n : Nat) (rows : List Article)
    (h : ingest_all batches today (NewsStore.valid items)
      = Except.ok ⟨n, NewsStore.valid rows⟩) :
    ∀ a ∈ rows, allowedSource a.source = true ∨ a.category = "System" := by
  have h2 : ingest_all batches today (NewsStore.valid items)
      = Except.ok (ingestCore today ((mergeById batches).map Prod.snd) (repoLoad items)) := rfl
  rw [h2] at h
  have hcore : ingestCore today ((mergeById batches).map Prod.snd) (repoLoad items)
      = ⟨n, NewsStore.valid rows⟩ := by injection h
  rw [ingestCore] at hcore
  intro a ha
  split at hcore
  · rw [IngestResult.mk.injEq] at hcore
    injection hcore.2 with hv
    rw [← hv, List.mem_singleton] at ha
    subst ha
    exact Or.inr rfl
  · split at hcore
    · rw [IngestResult.mk.injEq] at hcore
      injection hcore.2 with hv
      rw [← hv, List.mem_singleton] at ha
      subst ha
      exact Or.inr rfl
    · rw [IngestResult.mk.injEq] at hcore
      injection hcore.2 with hv
      rw [← hv, List.mem_map] at ha
      obtain ⟨b, hb, hba⟩ := ha
      left
      have hsrc : a.source = b.source := by rw [← hba]; rfl
      rw [hsrc]
      exact relevant_implies_allowed b (mem_ingestFinalRows_relevant _ _ b hb)

/-- C6 witness for the amended invariant, at a concrete run. -/
theorem ingest_all_allowlist_invariant_witness :
    (ingest_all [[], [], [], []] "2024-01-02" (NewsStore.valid [])
        = Except.ok ⟨1, NewsStore.valid [noNewsPlaceholder "2024-01-02"]⟩) ∧
      (∀ a ∈ [noNewsPlaceholder "2024-01-02"],
        allowedSource a.source = true ∨ a.category = "System") :=
  ⟨rfl, ingest_all_allowlist_invariant [[], [], [], []] "2024-01-02" [] 1
    [noNewsPlaceholder "2024-01-02"] rfl⟩

/-! Association-list facts. -/

theorem assocGet_set_self {β : Type} (m : List (String × β)) (k : String) (v : β) :
    assocGet (assocSet m k v) k = some v := by
  induction m with
  | nil => simp [assocSet, assocGet]
  | cons p t ih =>
    rw [assocSet]
    by_cases hp : p.1 == k
    · rw [if_pos hp, assocGet, if_pos (by simp)]
    · rw [if_neg hp, assocGet, if_neg hp]
      exact ih

theorem assocGet_set_ne {β : Type} (m : List (String × β)) (k k' : String) (v : β)
    (h : k' ≠ k) : assocGet (assocSet m k v) k' = assocGet m k' := by
  have hkk : (k == k') = false := by
    simpa using fun hc => h hc.symm
  induction m with
  | nil => simp [assocSet, assocGet, hkk]
  | cons p t ih =>
    rw [assocSet]
    by_cases hp : p.1 == k
    · have hpk : p.1 = k := by simpa using hp
      rw [if_pos hp, assocGet, if_neg (by simp [hkk]), assocGet, if_neg (by simp [hpk, hkk])]
    · rw [if_neg hp]
      by_cases hq : p.1 == k'
      · rw [assocGet, if_pos hq, assocGet, if_pos hq]
      · rw [assocGet, if_neg hq, assocGet, if_neg hq]
        exact ih

theorem assocHas_set {β : Type} (m : List (String × β)) (k k' : String) (v : β) :
    assocHas (assocSet m k v) k' = true ↔ k' = k ∨ assocHas m k' = true := by
  induction m with
  | nil =>
    rw [assocSet, assocHas, assocHas]
    constructor
    · intro hh
      simp [assocHas] at hh
      exact Or.inl hh.symm
    · rintro (rfl | hh)
      · simp
      · simp [assocHas] at hh
  | cons p t ih =>
    rw [assocSet]
    by_cases hp : p.1 == k
    · have hpk : p.1 = k := by simpa using hp
      rw [if_pos hp, assocHas, assocHas]
      simp only [hpk, Bool.or_eq_true, beq_iff_eq]
      constructor
      · rintro (h | h)
        · exact Or.inl h.symm
        · exact Or.inr (Or.inr h)
      · rintro (rfl | h | h)
        · exact Or.inl rfl
        · exact Or.inl h
        · exact Or.inr h
    · rw [if_neg hp, assocHas, assocHas]
      simp only [Bool.or_eq_true, ih]
      tauto

theorem assocHas_set_of_has {β : Type} (m : List (String × β)) (k k' : String) (v : β)
    (h : assocHas m k' = true) : assocHas (assocSet m k v) k' = true :=
  (assocHas_set m k k' v).mpr (Or.inr h)

/-! Facts about the engagement-weighted sentiment (C5). -/

theorem foldl_if_add_one_int (lowered : String) (l : List String) :
    ∀ z : ℤ, ∃ z' : ℤ,
      l.foldl (fun score token => if strContains lowered token then score + 1 else score)
        ((z : ℤ) : ℚ) = ((z' : ℤ) : ℚ) := by
  induction l with
  | nil => intro z; exact ⟨z, rfl⟩
  | cons t rest ih =>
    intro z
    rw [List.foldl_cons]
    by_cases h : strContains lowered t
    · rw [if_pos h, show ((z : ℤ) : ℚ) + 1 = (((z + 1 : ℤ) : ℤ) : ℚ) by push_cast; ring]
      exact ih (z + 1)
    · rw [if_neg h]
      exact ih z

theorem foldl_if_sub_one_int (lowered : String) (l : List String) :
    ∀ z : ℤ, ∃ z' : ℤ,
      l.foldl (fun score token => if strContains lowered token then score - 1 else score)
        ((z : ℤ) : ℚ) = ((z' : ℤ) : ℚ) := by
  induction l with
  | nil => intro z; exact ⟨z, rfl⟩
  | cons t rest ih =>
    intro z
    rw [List.foldl_cons]
    by_cases h : strContains lowered t
    · rw [if_pos h, show ((z : ℤ) : ℚ) - 1 = (((z - 1 : ℤ) : ℤ) : ℚ) by push_cast; ring]
      exact ih (z - 1)
    · rw [if_neg h]
      exact ih z

theorem naive_sentiment_int (text : String) :
    ∃ z : ℤ, naive_sentiment text = ((z : ℤ) : ℚ) := by
  rw [naive_sentiment]
  obtain ⟨z1, hz1⟩ := foldl_if_add_one_int (pyLower text) POSITIVE_TOKENS 0
  rw [show (0 : ℚ) = (((0 : ℤ) : ℤ) : ℚ) by norm_num, hz1]
  exact foldl_if_sub_one_int (pyLower text) NEGATIVE_TOKENS z1

theorem rndHalfEven_intCast (z : ℤ) : rndHalfEven ((z : ℤ) : ℚ) = z := by
  rw [rndHalfEven]
  simp only [Int.floor_intCast, sub_self]
  rw [if_pos (by norm_num)]

theorem pyRound_eq_self (n : Nat) (q : ℚ) (h : ∃ z : ℤ, q * ((10 : ℚ) ^ n) = ((z : ℤ) : ℚ)) :
    pyRound n q = q := by
  obtain ⟨z, hz⟩ := h
  have hpow : ((10 : ℚ) ^ n) ≠ 0 := by positivity
  rw [pyRound, hz, rndHalfEven_intCast, ← hz]
  field_simp

theorem amp_pos (L R : ℤ) (hL : 0 ≤ L) (hR : 0 ≤ R) :
    (0 : ℚ) < 1 + (L : ℚ) * (2 / 100) + (R : ℚ) * (5 / 100) := by
  have h1 : (0 : ℚ) ≤ (L : ℚ) := by exact_mod_cast hL
  have h2 : (0 : ℚ) ≤ (R : ℚ) := by exact_mod_cast hR
  nlinarith

/-- C5: the engagement-weighted sentiment weight equals
`naive_score * (1 + likes*0.02 + reposts*0.05)`; it is exactly 0 whenever
the naive sentiment is 0 (regardless of likes and reposts), and otherwise
has the same sign as the naive sentiment. -/
theorem compute_weight_spec (post : SocialPost) :
    computeWeight post
        = naive_sentiment post.text
          * (1 + ((max 0 (post.like_count.getD 0) : ℤ) : ℚ) * (2 / 100)
               + ((max 0 (post.repost_count.getD 0) : ℤ) : ℚ) * (5 / 100))
      ∧ (naive_sentiment post.text = 0 → computeWeight post = 0)
      ∧ (0 < naive_sentiment post.text → 0 < computeWeight post)
      ∧ (naive_sentiment post.text < 0 → computeWeight post < 0) := by
  obtain ⟨z, hz⟩ := naive_sentiment_int post.text
  have hamp := amp_pos (max 0 (post.like_count.getD 0)) (max 0 (post.repost_count.getD 0))
    (le_max_left _ _) (le_max_left _ _)
  have hfe : computeWeight post
      = naive_sentiment post.text
        * (1 + ((max 0 (post.like_count.getD 0) : ℤ) : ℚ) * (2 / 100)
             + ((max 0 (post.repost_count.getD 0) : ℤ) : ℚ) * (5 / 100)) := by
    rw [computeWeight]
    by_cases hb : naive_sentiment post.text = 0
    · rw [if_pos hb, hb, zero_mul]
    · rw [if_neg hb]
      apply pyRound_eq_self
      refine ⟨z * (10000 + 200 * max 0 (post.like_count.getD 0)
        + 500 * max 0 (post.repost_count.getD 0)), ?_⟩
      rw [hz]
      push_cast
      ring
  refine ⟨hfe, fun h0 => by rw [computeWeight, if_pos h0], ?_, ?_⟩
  · intro hpos
    rw [hfe]
    exact mul_pos hpos hamp
  · intro hneg
    rw [hfe]
    exact mul_neg_of_neg_of_pos hneg hamp

/-- C5 witness: the sign conjuncts at a concrete bullish post. -/
theorem compute_weight_spec_witness :
    0 < naive_sentiment c5Post.text ∧ 0 < computeWeight c5Post :=
  ⟨by with_unfolding_all exact of_decide_eq_true rfl,
   (compute_weight_spec c5Post).2.2.1 (by with_unfolding_all exact of_decide_eq_true rfl)⟩

/-! The three-tier post resolution (C9). -/

theorem annotatePosts_eq_nil (l : List SocialPost) : annotatePosts l = [] ↔ l = [] := by
  simp [annotatePosts]

/-- C9 counterexample: with a bearer token configured and the primary social
API yielding zero posts, the bundled sample fixture is used — although
credentials are configured — and it preempts the secondary public API, which
would have returned posts.  This contradicts both the claimed order
(secondary before fixture) and the claimed fixture precondition (no
credentials configured at all). -/
theorem social_fixture_preempts_secondary :
    normalize_bearer_token c9Env.rawBearerToken = some "token1234"
      ∧ queryPostsTwitterApi c9Env "TSLA" 50 = []
      ∧ fetch_stocktwits_symbol c9Env "TSLA" 50 ≠ []
      ∧ resolvePosts c9Env "TSLA" 50 = annotatePosts [c9SamplePost]
      ∧ resolvePosts c9Env "TSLA" 50 ≠ fetch_stocktwits_symbol c9Env "TSLA" 50 := by
  refine ⟨by with_unfolding_all rfl, by with_unfolding_all rfl,
    by with_unfolding_all exact of_decide_eq_true rfl,
    by with_unfolding_all rfl,
    by with_unfolding_all exact of_decide_eq_true rfl⟩

/-- C9 (amended): per symbol, posts are resolved in this order: (a) the
primary bearer-token social API when a usable token is configured, paginated,
returning partial results on rate-limit and empty on hard error; (b) when no
token is configured or the primary yields zero posts, the bundled
sample-data fixture, even when credentials are configured; (c) the secondary
public no-auth API (StockTwits) only when the fixture is also empty. -/
theorem social_fallback_order (env : SocialEnv) (sym : String) (maxPosts : Nat) :
    (∀ tok, normalize_bearer_token env.rawBearerToken = some tok →
        queryPostsTwitterApi env (normalizeSymbol sym) maxPosts ≠ [] →
        resolvePosts env sym maxPosts
          = annotatePosts (queryPostsTwitterApi env (normalizeSymbol sym) maxPosts))
    ∧ (∀ tok, normalize_bearer_token env.rawBearerToken = some tok →
        queryPostsTwitterApi env (normalizeSymbol sym) maxPosts = [] →
        samplePosts env (normalizeSymbol sym) ≠ [] →
        resolvePosts env sym maxPosts
          = annotatePosts (samplePosts env (normalizeSymbol sym)))
    ∧ (normalize_bearer_token env.rawBearerToken = none →
        samplePosts env (normalizeSymbol sym) ≠ [] →
        resolvePosts env sym maxPosts
          = annotatePosts (samplePosts env (normalizeSymbol sym)))
    ∧ ((normalize_bearer_token env.rawBearerToken = none
          ∨ queryPostsTwitterApi env (normalizeSymbol sym) maxPosts = []) →
        samplePosts env (normalizeSymbol sym) = [] →
        resolvePosts env sym maxPosts = fetch_stocktwits_symbol env sym maxPosts)
    ∧ (∀ rest, env.twitterResponses (normalizeSymbol sym) = TwResponse.netError :: rest →
        queryPostsTwitterApi env (normalizeSymbol sym) maxPosts = [])
    ∧ (∀ code rest,
        env.twitterResponses (normalizeSymbol sym) = TwResponse.httpError code :: rest →
        queryPostsTwitterApi env (normalizeSymbol sym) maxPosts = [])
    ∧ (∀ d u nt rest,
        env.twitterResponses (normalizeSymbol sym)
          = TwResponse.ok d u (some nt) :: TwResponse.rateLimited :: rest →
        d ≠ [] → d.length < maxPosts →
        queryPostsTwitterApi env (normalizeSymbol sym) maxPosts
          = d.map (convertTweet env (normalizeSymbol sym) u)) := by
  obtain ⟨k, hk⟩ : ∃ k, max 1 maxPosts = k + 1 := ⟨max 1 maxPosts - 1, by omega⟩
  refine ⟨?_, ?_, ?_, ?_, ?_, ?_, ?_⟩
  · intro tok htok hne
    have hfx : fetch_x_symbol_posts env sym maxPosts
        = annotatePosts (queryPostsTwitterApi env (normalizeSymbol sym) maxPosts) := by
      rw [fetch_x_symbol_posts, htok]
      simp only
      rw [if_pos hne]
    rw [resolvePosts, hfx, if_neg (by rw [annotatePosts_eq_nil]; exact hne)]
  · intro tok htok htw hsam
    have hfx : fetch_x_symbol_posts env sym maxPosts
        = annotatePosts (samplePosts env (normalizeSymbol sym)) := by
      rw [fetch_x_symbol_posts, htok]
      simp only
      rw [if_neg (by simp [htw]), if_pos hsam]
    rw [resolvePosts, hfx, if_neg (by rw [annotatePosts_eq_nil]; exact hsam)]
  · intro htok hsam
    have hfx : fetch_x_symbol_posts env sym maxPosts
        = annotatePosts (samplePosts env (normalizeSymbol sym)) := by
      rw [fetch_x_symbol_posts, htok]
      simp only
      rw [if_pos hsam]
    rw [resolvePosts, hfx, if_neg (by rw [annotatePosts_eq_nil]; exact hsam)]
  · intro hEither hsam
    have hfx : fetch_x_symbol_posts env sym maxPosts = [] := by
      rcases hEither with htok | htw
      · rw [fetch_x_symbol_posts, htok]
        simp only
        rw [if_neg (by simp [hsam])]
      · cases hcase : normalize_bearer_token env.rawBearerToken with
        | none =>
          rw [fetch_x_symbol_posts, hcase]
          simp only
          rw [if_neg (by simp [hsam])]
        | some tok =>
          rw [fetch_x_symbol_posts, hcase]
          simp only
          rw [if_neg (by simp [htw]), if_neg (by simp [hsam])]
    rw [resolvePosts, hfx, if_pos rfl]
  · intro rest hresp
    rw [queryPostsTwitterApi, hresp, hk]
    rfl
  · intro code rest hresp
    rw [queryPostsTwitterApi, hresp, hk]
    rfl
  · intro d u nt rest hresp hd hdlen
    rw [queryPostsTwitterApi, hresp, hk]
    have hstep1 : twLoop env (normalizeSymbol sym) maxPosts
        (TwResponse.ok d u (some nt) :: TwResponse.rateLimited :: rest) (k + 1) []
        = twLoop env (normalizeSymbol sym) maxPosts (TwResponse.rateLimited :: rest)
            (maxPosts - ([] ++ d.map (convertTweet env (normalizeSymbol sym) u)).length)
            ([] ++ d.map (convertTweet env (normalizeSymbol sym) u)) := by
      rw [twLoop]
      simp only [if_neg hd]
    rw [hstep1]
    obtain ⟨j, hj⟩ : ∃ j,
        maxPosts - ([] ++ d.map (convertTweet env (normalizeSymbol sym) u)).length = j + 1 :=
      ⟨maxPosts - ([] ++ d.map (convertTweet env (normalizeSymbol sym) u)).length - 1,
        by simp only [List.nil_append, List.length_map]; omega⟩
    rw [hj, twLoop]
    simp

/-- C9 witness: the fixture tier of the amended order at a concrete run with
credentials configured and an empty primary result. -/
theorem social_fallback_order_witness :
    normalize_bearer_token c9Env.rawBearerToken = some "token1234"
      ∧ queryPostsTwitterApi c9Env (normalizeSymbol "TSLA") 50 = []
      ∧ samplePosts c9Env (normalizeSymbol "TSLA") ≠ []
      ∧ resolvePosts c9Env "TSLA" 50
          = annotatePosts (samplePosts c9Env (normalizeSymbol "TSLA")) :=
  ⟨by with_unfolding_all rfl, by with_unfolding_all rfl,
    by with_unfolding_all exact of_decide_eq_true rfl,
    (social_fallback_order c9Env "TSLA" 50).2.1 "token1234"
      (by with_unfolding_all rfl) (by with_unfolding_all rfl)
      (by with_unfolding_all exact of_decide_eq_true rfl)⟩

/-! The bounded history ring buffer (C4). -/

theorem length_takeLast {α : Type} (n : Nat) (l : List α) :
    (takeLast n l).length = min n l.length := by
  rw [takeLast, List.length_drop]
  omega

theorem takeLast_suffix {α : Type} (n : Nat) (l : List α) : (takeLast n l).IsSuffix l :=
  List.drop_suffix _ _

theorem suffix_eq_of_length {α : Type} {l1 l2 : List α} (l : List α) (h1 : l1.IsSuffix l)
    (h2 : l2.IsSuffix l) (hlen : l1.length = l2.length) : l1 = l2 := by
  obtain ⟨t1, ht1⟩ := h1
  obtain ⟨t2, ht2⟩ := h2
  exact (List.append_inj' (ht1.trans ht2.symm) hlen).2

theorem isSuffix_append_right {α : Type} {l1 l2 : List α} (h : l1.IsSuffix l2)
    (t : List α) : (l1 ++ t).IsSuffix (l2 ++ t) := by
  obtain ⟨u, hu⟩ := h
  exact ⟨u, by rw [← List.append_assoc, hu]⟩

theorem takeLast_append_takeLast {α : Type} (n : Nat) (xs ys : List α) :
    takeLast n (takeLast n xs ++ ys) = takeLast n (xs ++ ys) := by
  refine suffix_eq_of_length (xs ++ ys) ?_ ?_ ?_
  · exact (takeLast_suffix n (takeLast n xs ++ ys)).trans
      (isSuffix_append_right (takeLast_suffix n xs) ys)
  · exact takeLast_suffix n (xs ++ ys)
  · rw [length_takeLast, length_takeLast, List.length_append, List.length_append,
      length_takeLast]
    omega

theorem foldl_socialStep_hist_pres (env : SocialEnv) (maxPosts : Nat) :
    ∀ (syms : List String)
      (st : List (String × List HistEntry) × List (String × SymbolBlock)) (k : String),
      assocGet (syms.foldl (socialStep env maxPosts) st).1 k = assocGet st.1 k
        ∨ ∃ l, assocGet (syms.foldl (socialStep env maxPosts) st).1 k = some l
            ∧ l.length ≤ MAX_HISTORY_POINTS := by
  intro syms
  induction syms with
  | nil => intro st k; exact Or.inl rfl
  | cons a rest ih =>
    intro st k
    rw [List.foldl_cons]
    rcases ih (socialStep env maxPosts st a) k with h | h
    · rw [h]
      by_cases ha : a = ""
      · rw [socialStep, if_pos ha]
        exact Or.inl rfl
      · by_cases hk : pyUpper a = k
        · right
          rw [socialStep, if_neg ha]
          subst hk
          exact ⟨newSymbolHistory env maxPosts st.1 a, assocGet_set_self _ _ _,
            by rw [newSymbolHistory, length_takeLast]; exact min_le_left _ _⟩
        · left
          rw [socialStep, if_neg ha]
          exact assocGet_set_ne _ _ _ _ fun hc => hk hc.symm
    · exact Or.inr h

theorem foldl_socialStep_hist_bound (env : SocialEnv) (maxPosts : Nat) :
    ∀ (syms : List String)
      (st : List (String × List HistEntry) × List (String × SymbolBlock))
      (s : String), s ∈ syms → s ≠ "" →
      ∃ l, assocGet (syms.foldl (socialStep env maxPosts) st).1 (pyUpper s) = some l
        ∧ l.length ≤ MAX_HISTORY_POINTS := by
  intro syms
  induction syms with
  | nil => intro st s hs _; simp at hs
  | cons a rest ih =>
    intro st s hs hsne
    rw [List.foldl_cons]
    rcases List.mem_cons.mp hs with rfl | hs'
    · rcases foldl_socialStep_hist_pres env maxPosts rest (socialStep env maxPosts st s)
          (pyUpper s) with h | h
      · rw [h, socialStep, if_neg hsne]
        exact ⟨newSymbolHistory env maxPosts st.1 s, assocGet_set_self _ _ _,
          by rw [newSymbolHistory, length_takeLast]; exact min_le_left _ _⟩
      · exact h
    · exact ih (socialStep env maxPosts st a) s hs' hsne

theorem ingest_social_single (env : SocialEnv) (existing : Option SocialPayload)
    (s : String) (maxPosts : Nat) (hs : pyLstrip ['$'] (pyStrip s) ≠ "") :
    (ingest_social env existing [s] maxPosts).history
      = assocSet (existingHistoryOf existing) (pyUpper (pyLstrip ['$'] (pyStrip s)))
          (takeLast MAX_HISTORY_POINTS
            ((assocGet (existingHistoryOf existing)
                (pyUpper (pyLstrip ['$'] (pyStrip s)))).getD []
              ++ [cycleEntry env (pyLstrip ['$'] (pyStrip s)) maxPosts])) := by
  have h1 : pyStrip s ≠ "" := fun hc => hs (by rw [hc]; rfl)
  have h0 : s ≠ "" := fun hc => h1 (by rw [hc]; rfl)
  have hnorm : normalizedSymbolsOf [s] = [pyLstrip ['$'] (pyStrip s)] := by
    rw [normalizedSymbolsOf]
    simp [h0, h1]
  show ((normalizedSymbolsOf [s]).foldl (socialStep env maxPosts)
    (existingHistoryOf existing, [])).1 = _
  rw [hnorm, List.foldl_cons, List.foldl_nil, socialStep, if_neg hs]
  rfl

theorem ingestCycles_single_hist (s : String) (maxPosts : Nat)
    (hs : pyLstrip ['$'] (pyStrip s) ≠ "") :
    ∀ (envs : List SocialEnv) (init : Option SocialPayload), envs ≠ [] →
      ∃ payload, ingestCycles envs [s] maxPosts init = some payload
        ∧ assocGet payload.history (pyUpper (pyLstrip ['$'] (pyStrip s)))
            = some (takeLast MAX_HISTORY_POINTS
                ((assocGet (existingHistoryOf init)
                    (pyUpper (pyLstrip ['$'] (pyStrip s)))).getD []
                  ++ envs.map fun env => cycleEntry env (pyLstrip ['$'] (pyStrip s)) maxPosts)) := by
  intro envs
  induction envs with
  | nil => intro init h; exact absurd rfl h
  | cons e rest ih =>
    intro init _
    rcases eq_or_ne rest [] with rfl | hne
    · refine ⟨ingest_social e init [s] maxPosts, rfl, ?_⟩
      rw [ingest_social_single e init s maxPosts hs, assocGet_set_self]
      rfl
    · obtain ⟨payload, hp, hget⟩ := ih (some (ingest_social e init [s] maxPosts)) hne
      refine ⟨payload, ?_, ?_⟩
      · rw [ingestCycles, List.foldl_cons]
        rw [ingestCycles] at hp
        exact hp
      · rw [hget]
        have hmid : (assocGet (existingHistoryOf (some (ingest_social e init [s] maxPosts)))
            (pyUpper (pyLstrip ['$'] (pyStrip s)))).getD []
            = takeLast MAX_HISTORY_POINTS
                ((assocGet (existingHistoryOf init)
                    (pyUpper (pyLstrip ['$'] (pyStrip s)))).getD []
                  ++ [cycleEntry e (pyLstrip ['$'] (pyStrip s)) maxPosts]) := by
          show (assocGet (ingest_social e init [s] maxPosts).history
            (pyUpper (pyLstrip ['$'] (pyStrip s)))).getD [] = _
          rw [ingest_social_single e init s maxPosts hs, assocGet_set_self]
          rfl
        rw [hmid, takeLast_append_takeLast, List.map_cons]
        congr 2
        rw [List.append_assoc]
        rfl

/-- C4: the per-symbol social history is a bounded ring buffer.  After any
single `ingest_social` call, every ingested symbol's persisted history has at
most MAX_HISTORY_POINTS (60) entries; after N ingest cycles over a symbol,
the persisted history is exactly the last 60 of the existing entries followed
by the per-cycle entries in chronological (oldest-to-newest) order — so for
N ≥ 60 it has exactly 60 entries, the 60 most recent, the oldest dropped
first. -/
theorem social_history_ring_buffer :
    (∀ (env : SocialEnv) (existing : Option SocialPayload) (symbols : List String)
        (maxPosts : Nat) (sym : String), sym ∈ symbols →
        pyLstrip ['$'] (pyStrip sym) ≠ "" →
        ∃ l, assocGet (ingest_social env existing symbols maxPosts).history
              (pyUpper (pyLstrip ['$'] (pyStrip sym))) = some l
          ∧ l.length ≤ MAX_HISTORY_POINTS)
    ∧ (∀ (envs : List SocialEnv) (init : Option SocialPayload) (s : String)
        (maxPosts : Nat), envs ≠ [] → pyLstrip ['$'] (pyStrip s) ≠ "" →
        ∃ payload, ingestCycles envs [s] maxPosts init = some payload
          ∧ assocGet payload.history (pyUpper (pyLstrip ['$'] (pyStrip s)))
              = some (takeLast MAX_HISTORY_POINTS
                  ((assocGet (existingHistoryOf init)
                      (pyUpper (pyLstrip ['$'] (pyStrip s)))).getD []
                    ++ envs.map fun env => cycleEntry env (pyLstrip ['$'] (pyStrip s)) maxPosts))
          ∧ (MAX_HISTORY_POINTS ≤ envs.length →
              (takeLast MAX_HISTORY_POINTS
                  ((assocGet (existingHistoryOf init)
                      (pyUpper (pyLstrip ['$'] (pyStrip s)))).getD []
                    ++ envs.map fun env =>
                        cycleEntry env (pyLstrip ['$'] (pyStrip s)) maxPosts)).length
                = MAX_HISTORY_POINTS)) := by
  constructor
  · intro env existing symbols maxPosts sym hmem hs
    have h1 : pyStrip sym ≠ "" := fun hc => hs (by rw [hc]; rfl)
    have h0 : sym ≠ "" := fun hc => h1 (by rw [hc]; rfl)
    have hmem' : pyLstrip ['$'] (pyStrip sym) ∈ normalizedSymbolsOf symbols := by
      rw [normalizedSymbolsOf]
      exact List.mem_filterMap.mpr ⟨sym, hmem, by rw [if_pos ⟨h0, h1⟩]⟩
    exact foldl_socialStep_hist_bound env maxPosts (normalizedSymbolsOf symbols)
      (existingHistoryOf existing, []) (pyLstrip ['$'] (pyStrip sym)) hmem' hs
  · intro envs init s maxPosts hne hs
    obtain ⟨payload, hp, hget⟩ := ingestCycles_single_hist s maxPosts hs envs init hne
    refine ⟨payload, hp, hget, fun hN => ?_⟩
    rw [length_takeLast, List.length_append, List.length_map]
    omega

/-- C4 witness: the ring-buffer bounds at a concrete single call over
["SPY"] and at 60 concrete offline ingest cycles. -/
theorem social_history_ring_buffer_witness :
    ("SPY" ∈ ["SPY"] ∧ pyLstrip ['$'] (pyStrip "SPY") ≠ "")
    ∧ (∃ l, assocGet (ingest_social c4Env none ["SPY"] 50).history
          (pyUpper (pyLstrip ['$'] (pyStrip "SPY"))) = some l
        ∧ l.length ≤ MAX_HISTORY_POINTS)
    ∧ (List.replicate 60 c4Env ≠ []
      ∧ MAX_HISTORY_POINTS ≤ (List.replicate 60 c4Env).length)
    ∧ (∃ payload, ingestCycles (List.replicate 60 c4Env) ["SPY"] 50 none = some payload
        ∧ assocGet payload.history (pyUpper (pyLstrip ['$'] (pyStrip "SPY")))
            = some (takeLast MAX_HISTORY_POINTS
                ((assocGet (existingHistoryOf none)
                    (pyUpper (pyLstrip ['$'] (pyStrip "SPY")))).getD []
                  ++ (List.replicate 60 c4Env).map fun env =>
                      cycleEntry env (pyLstrip ['$'] (pyStrip "SPY")) 50))
        ∧ (MAX_HISTORY_POINTS ≤ (List.replicate 60 c4Env).length →
            (takeLast MAX_HISTORY_POINTS
                ((assocGet (existingHistoryOf none)
                    (pyUpper (pyLstrip ['$'] (pyStrip "SPY")))).getD []
                  ++ (List.replicate 60 c4Env).map fun env =>
                      cycleEntry env (pyLstrip ['$'] (pyStrip "SPY")) 50)).length
              = MAX_HISTORY_POINTS)) :=
  ⟨⟨by simp, by decide⟩,
   social_history_ring_buffer.1 c4Env none ["SPY"] 50 "SPY" (by simp) (by decide),
   ⟨by simp, by simp [MAX_HISTORY_POINTS]⟩,
   social_history_ring_buffer.2 (List.replicate 60 c4Env) none "SPY" 50 (by simp)
     (by decide)⟩

/-! The frame effect of ingest_social (C10). -/

theorem foldl_socialStep_symbols_has (env : SocialEnv) (maxPosts : Nat) :
    ∀ (syms : List String)
      (st : List (String × List HistEntry) × List (String × SymbolBlock)) (k : String),
      assocHas (syms.foldl (socialStep env maxPosts) st).2 k = true
        ↔ (∃ s ∈ syms, s ≠ "" ∧ pyUpper s = k) ∨ assocHas st.2 k = true := by
  intro syms
  induction syms with
  | nil =>
    intro st k
    simp
  | cons a rest ih =>
    intro st k
    rw [List.foldl_cons, ih]
    by_cases ha : a = ""
    · rw [socialStep, if_pos ha]
      constructor
      · rintro (⟨s, hs, hsp⟩ | h)
        · exact Or.inl ⟨s, List.mem_cons_of_mem _ hs, hsp⟩
        · exact Or.inr h
      · rintro (⟨s, hs, hsne, hsu⟩ | h)
        · rcases List.mem_cons.mp hs with rfl | hs'
          · exact absurd ha hsne
          · exact Or.inl ⟨s, hs', hsne, hsu⟩
        · exact Or.inr h
    · rw [socialStep, if_neg ha]
      have hset := assocHas_set st.2 (pyUpper a) k
        ({ summary := symbolSummary env a maxPosts,
           posts := resolvePosts env a maxPosts,
           history := newSymbolHistory env maxPosts st.1 a,
           price := symbolPrice env a } : SymbolBlock)
      constructor
      · rintro (⟨s, hs, hsp⟩ | h)
        · exact Or.inl ⟨s, List.mem_cons_of_mem _ hs, hsp⟩
        · rcases hset.mp h with h | h
          · exact Or.inl ⟨a, List.mem_cons_self _ _, ha, h.symm⟩
          · exact Or.inr h
      · rintro (⟨s, hs, hsne, hsu⟩ | h)
        · rcases List.mem_cons.mp hs with rfl | hs'
          · exact Or.inr (hset.mpr (Or.inl hsu.symm))
          · exact Or.inl ⟨s, hs', hsne, hsu⟩
        · exact Or.inr (hset.mpr (Or.inr h))

theorem foldl_socialStep_hist_frame (env : SocialEnv) (maxPosts : Nat) :
    ∀ (syms : List String)
      (st : List (String × List HistEntry) × List (String × SymbolBlock)) (k : String),
      (∀ s ∈ syms, s = "" ∨ pyUpper s ≠ k) →
      assocGet (syms.foldl (socialStep env maxPosts) st).1 k = assocGet st.1 k := by
  intro syms
  induction syms with
  | nil => intro st k _; rfl
  | cons a rest ih =>
    intro st k h
    rw [List.foldl_cons,
      ih (socialStep env maxPosts st a) k fun s hs => h s (List.mem_cons_of_mem _ hs)]
    by_cases ha0 : a = ""
    · rw [socialStep, if_pos ha0]
    · rw [socialStep, if_neg ha0]
      rcases h a (List.mem_cons_self _ _) with ha | ha
      · exact absurd ha ha0
      · exact assocGet_set_ne _ _ _ _ fun hc => ha hc.symm

theorem foldl_socialStep_hist_mono (env : SocialEnv) (maxPosts : Nat) :
    ∀ (syms : List String)
      (st : List (String × List HistEntry) × List (String × SymbolBlock)) (k : String),
      assocHas st.1 k = true →
      assocHas (syms.foldl (socialStep env maxPosts) st).1 k = true := by
  intro syms
  induction syms with
  | nil => intro st k h; exact h
  | cons a rest ih =>
    intro st k h
    rw [List.foldl_cons]
    apply ih
    by_cases ha : a = ""
    · rw [socialStep, if_pos ha]
      exact h
    · rw [socialStep, if_neg ha]
      exact assocHas_set_of_has _ _ _ _ h

/-- C10: one ingest_social call rebuilds the symbols section from exactly
the symbols of the current call (a key is present there iff it is the
uppercased normalization of a processed symbol — per-symbol data of symbols
not in the call is dropped), while the top-level history map keeps every
symbol not ingested in this call unchanged and never loses a key that the
existing store's history already had. -/
theorem ingest_social_frame (env : SocialEnv) (existing : Option SocialPayload)
    (symbols : List String) (maxPosts : Nat) :
    (∀ k, assocHas (ingest_social env existing symbols maxPosts).symbols k = true
        ↔ ∃ s ∈ normalizedSymbolsOf symbols, s ≠ "" ∧ pyUpper s = k)
    ∧ (∀ k, (∀ s ∈ normalizedSymbolsOf symbols, s = "" ∨ pyUpper s ≠ k) →
        assocGet (ingest_social env existing symbols maxPosts).history k
          = assocGet (existingHistoryOf existing) k)
    ∧ (∀ k, assocHas (existingHistoryOf existing) k = true →
        assocHas (ingest_social env existing symbols maxPosts).history k = true) := by
  refine ⟨?_, ?_, ?_⟩
  · intro k
    rw [show (ingest_social env existing symbols maxPosts).symbols
        = ((normalizedSymbolsOf symbols).foldl (socialStep env maxPosts)
            (existingHistoryOf existing, [])).2 from rfl,
      foldl_socialStep_symbols_has env maxPosts (normalizedSymbolsOf symbols)
        (existingHistoryOf existing, []) k]
    constructor
    · rintro (h | h)
      · exact h
      · simp [assocHas] at h
    · exact Or.inl
  · intro k hk
    rw [show (ingest_social env existing symbols maxPosts).history
        = ((normalizedSymbolsOf symbols).foldl (socialStep env maxPosts)
            (existingHistoryOf existing, [])).1 from rfl]
    exact foldl_socialStep_hist_frame env maxPosts (normalizedSymbolsOf symbols)
      (existingHistoryOf existing, []) k hk
  · intro k hk
    rw [show (ingest_social env existing symbols maxPosts).history
        = ((normalizedSymbolsOf symbols).foldl (socialStep env maxPosts)
            (existingHistoryOf existing, [])).1 from rfl]
    exact foldl_socialStep_hist_mono env maxPosts (normalizedSymbolsOf symbols)
      (existingHistoryOf existing, []) k hk

/-- C10 witness: a concrete call for ["SPY"] over a store that has history
for a symbol OLD: OLD's history is unchanged and still present, its symbols
entry is gone, and SPY's symbols entry is present. -/
theorem ingest_social_frame_witness :
    (∀ s ∈ normalizedSymbolsOf ["SPY"], s = "" ∨ pyUpper s ≠ "OLD")
    ∧ assocGet (ingest_social c4Env (some c10Existing) ["SPY"] 50).history "OLD"
        = assocGet (existingHistoryOf (some c10Existing)) "OLD"
    ∧ (assocHas (existingHistoryOf (some c10Existing)) "OLD" = true
      ∧ assocHas (ingest_social c4Env (some c10Existing) ["SPY"] 50).history "OLD" = true)
    ∧ (assocHas (ingest_social c4Env (some c10Existing) ["SPY"] 50).symbols "OLD" = true
        ↔ ∃ s ∈ normalizedSymbolsOf ["SPY"], s ≠ "" ∧ pyUpper s = "OLD")
    ∧ (assocHas (ingest_social c4Env (some c10Existing) ["SPY"] 50).symbols "SPY" = true
        ↔ ∃ s ∈ normalizedSymbolsOf ["SPY"], s ≠ "" ∧ pyUpper s = "SPY") :=
  ⟨by decide,
   (ingest_social_frame c4Env (some c10Existing) ["SPY"] 50).2.1 "OLD" (by decide),
   ⟨by decide,
    (ingest_social_frame c4Env (some c10Existing) ["SPY"] 50).2.2 "OLD" (by decide)⟩,
   (ingest_social_frame c4Env (some c10Existing) ["SPY"] 50).1 "OLD",
   (ingest_social_frame c4Env (some c10Existing) ["SPY"] 50).1 "SPY"⟩

/-! The offline macro payload (C7) and the macro cache policy (C8). -/

/-- C7: with no API keys configured (empty FRED and EIA keys) the macro
builder returns exactly 4 categories totalling 13 metrics (3 job-market,
3 inflation, 4 economic-activities, 3 energy), and every metric carries a
non-empty summary string and a non-empty detail string. -/
theorem macro_fetch_offline_defaults (s : MacroTrendsService)
    (hf : s.fred_api_key = "") (he : s.eia_api_key = "") :
    (MacroTrendsService.fetch s).categories.length = 4
    ∧ ((MacroTrendsService.fetch s).categories.map fun c => c.metrics.length)
        = [3, 3, 4, 3]
    ∧ (((MacroTrendsService.fetch s).categories.map fun c => c.metrics.length).sum = 13)
    ∧ ∀ c ∈ (MacroTrendsService.fetch s).categories, ∀ m ∈ c.metrics,
        m.summary ≠ none ∧ m.summary ≠ some "" ∧ m.detail ≠ "" := by
  obtain ⟨fk, ek, env⟩ := s
  simp only at hf he
  subst hf
  subst he
  have hcat : (MacroTrendsService.fetch
      { fred_api_key := "", eia_api_key := "", env := env }).categories
      = [{ id := "job-market", title := "Job Market",
           metrics := [fallback_metric "job-market" "unemployment-rate",
             fallback_metric "job-market" "initial-jobless-claims",
             fallback_metric "job-market" "nonfarm-payrolls"] },
         { id := "inflation", title := "Inflation",
           metrics := [fallback_metric "inflation" "cpi-yoy",
             fallback_metric "inflation" "core-cpi-yoy",
             fallback_metric "inflation" "ppi-mom"] },
         { id := "economic-activities", title := "Economic Activities",
           metrics := [fallback_metric "economic-activities" "industrial-production",
             fallback_metric "economic-activities" "retail-sales",
             fallback_metric "economic-activities" "housing-starts",
             fallback_metric "economic-activities" "consumer-sentiment"] },
         { id := "energy", title := "Energy Markets",
           metrics := [fallback_metric "energy" "wti-crude",
             fallback_metric "energy" "natural-gas",
             fallback_metric "energy" "retail-gasoline"] }] := rfl
  rw [hcat]
  exact ⟨rfl, rfl, rfl, by decide⟩

/-- C7 witness: the concrete offline service satisfies the hypotheses, and
its payload has the 3-3-4-3 metric counts. -/
theorem macro_fetch_offline_defaults_witness :
    (c7Service.fred_api_key = "" ∧ c7Service.eia_api_key = "")
    ∧ ((MacroTrendsService.fetch c7Service).categories.map fun c => c.metrics.length)
        = [3, 3, 4, 3] :=
  ⟨⟨rfl, rfl⟩, (macro_fetch_offline_defaults c7Service rfl rfl).2.1⟩

theorem servedCache_eq_some (env : MacroEnv) (cache : MacroCache) (fred eia : String)
    (ttl : Option ℤ) (p : MacroPayload) :
    servedCache env cache fred eia ttl false = some p
      ↔ (cache.data = some p ∧ cache_expired ttl env.now cache = false
          ∧ ((fred = "" ∧ eia = "") ∨ payload_has_timeseries p = true)) := by
  rw [servedCache, if_neg (by simp)]
  cases hd : cache.data with
  | none => simp
  | some cached =>
    dsimp only
    by_cases hexp : cache_expired ttl env.now cache = false
    · rw [if_pos hexp]
      by_cases hc : (fred = "" ∧ eia = "") ∨ payload_has_timeseries cached = true
      · rw [if_pos hc]
        constructor
        · intro h
          injection h with h
          subst h
          exact ⟨rfl, hexp, hc⟩
        · rintro ⟨hp, _, _⟩
          injection hp with hp
          subst hp
          rfl
      · rw [if_neg hc]
        constructor
        · intro h
          exact absurd h (by simp)
        · rintro ⟨hp, _, hcond⟩
          injection hp with hp
          subst hp
          exact absurd hcond hc
    · rw [if_neg hexp]
      constructor
      · intro h
        exact absurd h (by simp)
      · rintro ⟨hp, hexp2, _⟩
        exact absurd hexp2 hexp

/-- C8: with use_cache=True and force_refresh=False, the cached payload is
served (and no rebuild happens) if and only if a cached payload exists, it
is within the TTL, and either no live credentials are configured (after
stripping) or the cached payload has at least one populated history array;
in that case the returned payload is the cached one and the cache is left
unchanged, and in every other case a fresh payload is built and written
into the cache. -/
theorem get_macro_trends_cache_policy (env : MacroEnv) (cache : MacroCache)
    (fredApiKey eiaApiKey : String) (ttl : Option ℤ) :
    ((get_macro_trends env cache fredApiKey eiaApiKey true ttl false).rebuilt = false
      ↔ ∃ p, cache.data = some p
          ∧ cache_expired ttl env.now cache = false
          ∧ ((pyStrip fredApiKey = "" ∧ pyStrip eiaApiKey = "")
              ∨ payload_has_timeseries p = true))
    ∧ (∀ p, cache.data = some p →
        (get_macro_trends env cache fredApiKey eiaApiKey true ttl false).rebuilt = false →
        (get_macro_trends env cache fredApiKey eiaApiKey true ttl false).payload = p
        ∧ (get_macro_trends env cache fredApiKey eiaApiKey true ttl false).cache = cache)
    ∧ ((get_macro_trends env cache fredApiKey eiaApiKey true ttl false).rebuilt = true →
        (get_macro_trends env cache fredApiKey eiaApiKey true ttl false).payload
          = build_macro_trends_payload env (pyStrip fredApiKey) (pyStrip eiaApiKey)
        ∧ (get_macro_trends env cache fredApiKey eiaApiKey true ttl false).cache
          = { data := some (build_macro_trends_payload env (pyStrip fredApiKey)
                (pyStrip eiaApiKey))
              timestamp := env.now }) := by
  cases hsc : servedCache env cache (pyStrip fredApiKey) (pyStrip eiaApiKey) ttl false with
  | some cached =>
    have hg : get_macro_trends env cache fredApiKey eiaApiKey true ttl false
        = { payload := cached, cache := cache, rebuilt := false } := by
      rw [get_macro_trends, if_neg (by simp), hsc]
    obtain ⟨hd, hexp, hcond⟩ := (servedCache_eq_some env cache (pyStrip fredApiKey)
      (pyStrip eiaApiKey) ttl cached).mp hsc
    refine ⟨?_, ?_, ?_⟩
    · rw [hg]
      exact ⟨fun _ => ⟨cached, hd, hexp, hcond⟩, fun _ => rfl⟩
    · intro p hp _
      rw [hg]
      rw [hd] at hp
      injection hp with hp
      exact ⟨hp, rfl⟩
    · intro hreb
      rw [hg] at hreb
      exact absurd hreb (by simp)
  | none =>
    have hg : get_macro_trends env cache fredApiKey eiaApiKey true ttl false
        = { payload := build_macro_trends_payload env (pyStrip fredApiKey) (pyStrip eiaApiKey)
            cache := { data := some (build_macro_trends_payload env (pyStrip fredApiKey)
                          (pyStrip eiaApiKey))
                       timestamp := env.now }
            rebuilt := true } := by
      rw [get_macro_trends, if_neg (by simp), hsc]
    refine ⟨?_, ?_, ?_⟩
    · rw [hg]
      constructor
      · intro h
        exact absurd h (by simp)
      · rintro ⟨p, hd, hexp, hcond⟩
        exact absurd ((servedCache_eq_some env cache (pyStrip fredApiKey)
          (pyStrip eiaApiKey) ttl p).mpr ⟨hd, hexp, hcond⟩) (by rw [hsc]; simp)
    · intro p _ hreb
      rw [hg] at hreb
      exact absurd hreb (by simp)
    · intro _
      rw [hg]
      exact ⟨rfl, rfl⟩

/-- C8 witness: a fresh cache whose payload has a populated history array
is served without a rebuild even though a FRED key is configured. -/
theorem get_macro_trends_cache_policy_witness :
    c8Cache.data = some c8Payload
    ∧ (get_macro_trends c8Env c8Cache "FREDKEY" "" true (some 3600) false).rebuilt = false
    ∧ ((get_macro_trends c8Env c8Cache "FREDKEY" "" true (some 3600) false).payload = c8Payload
      ∧ (get_macro_trends c8Env c8Cache "FREDKEY" "" true (some 3600) false).cache = c8Cache) :=
  ⟨rfl, by with_unfolding_all rfl,
   (get_macro_trends_cache_policy c8Env c8Cache "FREDKEY" "" (some 3600)).2.1
     c8Payload rfl (by with_unfolding_all rfl)⟩
